import Mathlib

/-!
Call sequencing of the triangle example (`examples/triangle/main.c`)

The program is glue code over two external libraries (the GPU API and GLFW).
The embedding keeps the program's own state (`struct demo` and the local
variables of `main`) and records every external call it issues, in order, as
a list of `Call` values.  What the libraries answer is not decided by the
program; it is supplied as data (`Env`, `FrameEnv`, `Event`), and the
results below hold for all of it.

Conventions:
* a handle (any pointer-typed API object) is a natural number, `0` is `NULL`;
* a C `int` is an `Int`, a `uint32_t` is a `Nat` reduced modulo `2^32`;
* a C string is the list of its characters before the terminating NUL;
* `assert` is active (no `NDEBUG`): a failed `assert` aborts the process;
* the values of the enumerators and macros declared in the library headers
  are the fields of `Headers`; nothing below depends on their values.
-/

namespace Triangle

/-- An API object handle; `0` is the null handle. -/
abbrev Handle := Nat

/-- Enumerators and macros of `webgpu.h`, `wgpu.h`, `GLFW/glfw3.h` and
`stdlib.h` that `main.c` names.  The headers are not part of the source
tree, so the values are a parameter of every definition that uses one. -/
structure Headers where
  WGPUErrorType_NoError : Nat
  WGPURequestAdapterStatus_Success : Nat
  WGPURequestDeviceStatus_Success : Nat
  WGPUTextureFormat_Undefined : Nat
  WGPUTextureUsage_RenderAttachment : Nat
  WGPUPresentMode_Fifo : Nat
  WGPULoadOp_Clear : Nat
  WGPUStoreOp_Store : Nat
  WGPUErrorFilter_Validation : Nat
  WGPULogLevel_Warn : Nat
  WGPUColorWriteMask_All : Nat
  WGPUPrimitiveTopology_TriangleList : Nat
  WGPUSType_SurfaceDescriptorFromMetalLayer : Nat
  WGPUSType_SurfaceDescriptorFromXlibWindow : Nat
  WGPUSType_SurfaceDescriptorFromWaylandSurface : Nat
  WGPUSType_SurfaceDescriptorFromWindowsHWND : Nat
  GLFW_KEY_R : Int
  GLFW_PRESS : Int
  GLFW_REPEAT : Int
  GLFW_CLIENT_API : Int
  GLFW_NO_API : Int
  GLFW_PLATFORM : Int
  GLFW_PLATFORM_WAYLAND : Int
  EXIT_SUCCESS : Int

/-- The enumerator values of the headers the example is built against. -/
def stdHeaders : Headers where
  WGPUErrorType_NoError := 0
  WGPURequestAdapterStatus_Success := 0
  WGPURequestDeviceStatus_Success := 0
  WGPUTextureFormat_Undefined := 0
  WGPUTextureUsage_RenderAttachment := 16
  WGPUPresentMode_Fifo := 2
  WGPULoadOp_Clear := 1
  WGPUStoreOp_Store := 1
  WGPUErrorFilter_Validation := 0
  WGPULogLevel_Warn := 2
  WGPUColorWriteMask_All := 15
  WGPUPrimitiveTopology_TriangleList := 3
  WGPUSType_SurfaceDescriptorFromMetalLayer := 1
  WGPUSType_SurfaceDescriptorFromXlibWindow := 3
  WGPUSType_SurfaceDescriptorFromWaylandSurface := 8
  WGPUSType_SurfaceDescriptorFromWindowsHWND := 2
  GLFW_KEY_R := 82
  GLFW_PRESS := 1
  GLFW_REPEAT := 2
  GLFW_CLIENT_API := 139265
  GLFW_NO_API := 0
  GLFW_PLATFORM := 327683
  GLFW_PLATFORM_WAYLAND := 393219
  EXIT_SUCCESS := 0

/-- The build target selected by the `WGPU_TARGET_*` macro. -/
inductive Target
  | MACOS
  | LINUX_X11
  | LINUX_WAYLAND
  | WINDOWS
  deriving DecidableEq, Repr

/-- The fields of `WGPUSwapChainDescriptor` that `main.c` writes. -/
structure WGPUSwapChainDescriptor where
  usage : Nat
  format : Nat
  width : Nat
  height : Nat
  presentMode : Nat
  deriving DecidableEq, Repr

/-- The record `struct demo` of `main.c`. -/
structure demo where
  «instance» : Handle
  surface : Handle
  adapter : Handle
  device : Handle
  config : WGPUSwapChainDescriptor
  swapchain : Handle
  skip_curr_frame : Bool
  deriving DecidableEq, Repr

/-- The clear colour; the literals `0.0` and `1.0` of the source are whole
numbers and are kept as integers. -/
structure WGPUColor where
  r : Int
  g : Int
  b : Int
  a : Int
  deriving DecidableEq, Repr

structure WGPURenderPassColorAttachment where
  view : Handle
  loadOp : Nat
  storeOp : Nat
  clearValue : WGPUColor
  deriving DecidableEq, Repr

structure WGPURenderPassDescriptor where
  label : String
  colorAttachmentCount : Nat
  colorAttachments : List WGPURenderPassColorAttachment
  deriving DecidableEq, Repr

structure WGPUColorTargetState where
  format : Nat
  writeMask : Nat
  deriving DecidableEq, Repr

/-- The fields of `WGPURenderPipelineDescriptor` that `main.c` sets. -/
structure WGPURenderPipelineDescriptor where
  label : String
  layout : Handle
  vertex_module : Handle
  vertex_entryPoint : String
  fragment_module : Handle
  fragment_entryPoint : String
  fragment_targetCount : Nat
  fragment_targets : List WGPUColorTargetState
  primitive_topology : Nat
  multisample_count : Nat
  multisample_mask : Nat
  deriving DecidableEq, Repr

/-- The platform descriptor chained to `WGPUSurfaceDescriptor`. -/
inductive SurfaceSource
  | FromMetalLayer (sType : Nat) (layer : Handle)
  | FromXlibWindow (sType : Nat) (display window : Handle)
  | FromWaylandSurface (sType : Nat) (display surface : Handle)
  | FromWindowsHWND (sType : Nat) (hinstance hwnd : Handle)
  deriving DecidableEq, Repr

/-- One variadic argument of a `printf` call. -/
inductive PrintfArg
  | uint (v : Nat)
  | int (v : Int)
  | str (s : List Char)
  | file
  deriving DecidableEq, Repr

/-- One call into an external library, with its arguments and, for a call
whose return value the program reads, the value returned (`ret`). -/
inductive Call
  | printf (format : String) (args : List PrintfArg)
  | frmwrk_setup_logging (level : Nat)
  | frmwrk_load_shader_module (device : Handle) (name : String) (ret : Handle)
  | frmwrk_print_global_report
  | glfwInitHint (hint value : Int)
  | glfwInit (ret : Int)
  | glfwWindowHint (hint value : Int)
  | glfwCreateWindow (width height : Int) (title : String) (monitor share ret : Handle)
  | glfwSetWindowUserPointer (window : Handle)
  | glfwGetWindowUserPointer (window : Handle)
  | glfwSetKeyCallback (window : Handle)
  | glfwSetFramebufferSizeCallback (window : Handle)
  | glfwGetCocoaWindow (window ret : Handle)
  | setWantsLayer (ns_window : Handle)
  | CAMetalLayer_layer (ret : Handle)
  | setLayer (ns_window layer : Handle)
  | glfwGetX11Display (ret : Handle)
  | glfwGetX11Window (window ret : Handle)
  | glfwGetWaylandDisplay (ret : Handle)
  | glfwGetWaylandWindow (window ret : Handle)
  | glfwGetWin32Window (window ret : Handle)
  | GetModuleHandle (ret : Handle)
  | glfwGetWindowSize (window : Handle) (width height : Int)
  | glfwWindowShouldClose (window : Handle) (ret : Bool)
  | glfwPollEvents
  | glfwDestroyWindow (window : Handle)
  | glfwTerminate
  | wgpuCreateInstance (ret : Handle)
  | wgpuInstanceCreateSurface (inst : Handle) (source : SurfaceSource) (ret : Handle)
  | wgpuInstanceRequestAdapter (inst compatibleSurface : Handle)
  | wgpuAdapterRequestDevice (adapter : Handle)
  | wgpuDeviceGetQueue (device ret : Handle)
  | wgpuDeviceCreatePipelineLayout (device : Handle) (label : String) (ret : Handle)
  | wgpuSurfaceGetPreferredFormat (surface adapter : Handle) (ret : Nat)
  | wgpuDeviceCreateRenderPipeline (device : Handle)
      (descriptor : WGPURenderPipelineDescriptor) (ret : Handle)
  | wgpuDeviceCreateSwapChain (device surface : Handle)
      (config : WGPUSwapChainDescriptor) (ret : Handle)
  | wgpuGenerateReport (inst : Handle)
  | wgpuDevicePushErrorScope (device : Handle) (filter : Nat)
  | wgpuSwapChainGetCurrentTextureView (swapchain ret : Handle)
  | wgpuDevicePopErrorScope (device : Handle)
  | wgpuDeviceCreateCommandEncoder (device : Handle) (label : String) (ret : Handle)
  | wgpuCommandEncoderBeginRenderPass (encoder : Handle)
      (descriptor : WGPURenderPassDescriptor) (ret : Handle)
  | wgpuRenderPassEncoderSetPipeline (pass pipeline : Handle)
  | wgpuRenderPassEncoderDraw (pass : Handle)
      (vertexCount instanceCount firstVertex firstInstance : Nat)
  | wgpuRenderPassEncoderEnd (pass : Handle)
  | wgpuCommandEncoderFinish (encoder : Handle) (label : String) (ret : Handle)
  | wgpuQueueSubmit (queue : Handle) (commandCount : Nat) (commands : List Handle)
  | wgpuSwapChainPresent (swapchain : Handle)
  | wgpuCommandBufferRelease (h : Handle)
  | wgpuRenderPassEncoderRelease (h : Handle)
  | wgpuCommandEncoderRelease (h : Handle)
  | wgpuTextureViewRelease (h : Handle)
  | wgpuRenderPipelineRelease (h : Handle)
  | wgpuPipelineLayoutRelease (h : Handle)
  | wgpuShaderModuleRelease (h : Handle)
  | wgpuSwapChainRelease (h : Handle)
  | wgpuQueueRelease (h : Handle)
  | wgpuDeviceRelease (h : Handle)
  | wgpuAdapterRelease (h : Handle)
  | wgpuSurfaceRelease (h : Handle)
  | wgpuInstanceRelease (h : Handle)
  deriving Repr

/-- The calls into the GPU API: the functions whose name starts with `wgpu`. -/
def Call.isGPU : Call → Bool
  | .wgpuCreateInstance _ => true
  | .wgpuInstanceCreateSurface _ _ _ => true
  | .wgpuInstanceRequestAdapter _ _ => true
  | .wgpuAdapterRequestDevice _ => true
  | .wgpuDeviceGetQueue _ _ => true
  | .wgpuDeviceCreatePipelineLayout _ _ _ => true
  | .wgpuSurfaceGetPreferredFormat _ _ _ => true
  | .wgpuDeviceCreateRenderPipeline _ _ _ => true
  | .wgpuDeviceCreateSwapChain _ _ _ _ => true
  | .wgpuGenerateReport _ => true
  | .wgpuDevicePushErrorScope _ _ => true
  | .wgpuSwapChainGetCurrentTextureView _ _ => true
  | .wgpuDevicePopErrorScope _ => true
  | .wgpuDeviceCreateCommandEncoder _ _ _ => true
  | .wgpuCommandEncoderBeginRenderPass _ _ _ => true
  | .wgpuRenderPassEncoderSetPipeline _ _ => true
  | .wgpuRenderPassEncoderDraw _ _ _ _ _ => true
  | .wgpuRenderPassEncoderEnd _ => true
  | .wgpuCommandEncoderFinish _ _ _ => true
  | .wgpuQueueSubmit _ _ _ => true
  | .wgpuSwapChainPresent _ => true
  | .wgpuCommandBufferRelease _ => true
  | .wgpuRenderPassEncoderRelease _ => true
  | .wgpuCommandEncoderRelease _ => true
  | .wgpuTextureViewRelease _ => true
  | .wgpuRenderPipelineRelease _ => true
  | .wgpuPipelineLayoutRelease _ => true
  | .wgpuShaderModuleRelease _ => true
  | .wgpuSwapChainRelease _ => true
  | .wgpuQueueRelease _ => true
  | .wgpuDeviceRelease _ => true
  | .wgpuAdapterRelease _ => true
  | .wgpuSurfaceRelease _ => true
  | .wgpuInstanceRelease _ => true
  | _ => false

/-- The macro `LOG_PREFIX`. -/
def LOG_PREFIX : String := "[triangle]"

/-- C `strstr`: the offset of the first occurrence of `needle` in
`haystack`, or `none` for the null pointer when there is none. -/
def strstr : List Char → List Char → Option Nat
  | [], needle => if needle.isPrefixOf [] then some 0 else none
  | c :: rest, needle =>
    if needle.isPrefixOf (c :: rest) then some 0
    else (strstr rest needle).map (· + 1)

/-- Conversion of an `int` to `uint32_t`. -/
def toUint32 (v : Int) : Nat := (v % 4294967296).toNat

/-- What a callback did: the record its user pointer refers to afterwards
(`none` when the pointer is null), the calls it made, and whether an
`assert` in it failed. -/
structure Effect where
  demo : Option demo
  calls : List Call
  aborted : Bool
  deriving Repr

/-- The adapter callback, `main.c` lines 38-48; `userdata` is `&demo`. -/
def handle_request_adapter (K : Headers) (status : Nat) (adapter : Handle)
    (message : List Char) (userdata : demo) : demo × List Call :=
  if status = K.WGPURequestAdapterStatus_Success then
    ({ userdata with adapter := adapter }, [])
  else
    (userdata,
      [.printf ( LOG_PREFIX ++ " request_adapter status=%#.8x message=%s\n")
        [.uint status, .str message]])

/-- The device callback, `main.c` lines 49-59; `userdata` is `&demo`. -/
def handle_request_device (K : Headers) (status : Nat) (device : Handle)
    (message : List Char) (userdata : demo) : demo × List Call :=
  if status = K.WGPURequestDeviceStatus_Success then
    ({ userdata with device := device }, [])
  else
    (userdata,
      [.printf ( LOG_PREFIX ++ " request_device status=%#.8x message=%s\n")
        [.uint status, .str message]])

/-- The key callback, `main.c` lines 60-73.  `userPointer` is what
`glfwGetWindowUserPointer(window)` returns. -/
def handle_glfw_key (K : Headers) (window : Handle) (userPointer : Option demo)
    (key _scancode action _mods : Int) : Effect :=
  if key = K.GLFW_KEY_R ∧ (action = K.GLFW_PRESS ∨ action = K.GLFW_REPEAT) then
    match userPointer with
    | none => ⟨none, [.glfwGetWindowUserPointer window], false⟩
    | some d =>
      if d.«instance» = 0 then ⟨some d, [.glfwGetWindowUserPointer window], false⟩
      else
        ⟨some d, [.glfwGetWindowUserPointer window, .wgpuGenerateReport d.«instance»,
          .frmwrk_print_global_report], false⟩
  else ⟨userPointer, [], false⟩

/-- The resize callback, `main.c` lines 74-92.  `userPointer` is what
`glfwGetWindowUserPointer(window)` returns and `created` is what
`wgpuDeviceCreateSwapChain` returns if the callback calls it. -/
def handle_glfw_framebuffer_size (window : Handle) (userPointer : Option demo)
    (width height : Int) (created : Handle) : Effect :=
  if width = 0 ∧ height = 0 then ⟨userPointer, [], false⟩
  else
    match userPointer with
    | none => ⟨none, [.glfwGetWindowUserPointer window], false⟩
    | some d =>
      if d.swapchain = 0 then ⟨some d, [.glfwGetWindowUserPointer window], false⟩
      else
        let config := { d.config with width := toUint32 width, height := toUint32 height }
        let released :=
          if d.swapchain ≠ 0 then [Call.wgpuSwapChainRelease d.swapchain] else []
        let d1 : demo := { d with config := config, swapchain := created }
        ⟨some d1,
          [.glfwGetWindowUserPointer window] ++ released ++
            [.wgpuDeviceCreateSwapChain d.device d.surface config created],
          decide (created = 0)⟩

/-- The error-scope callback, `main.c` lines 93-113; `message` is a
non-null C string and `userdata` is `&demo`. -/
def handle_curr_texture_error (K : Headers) (type : Nat) (message : List Char)
    (userdata : demo) : demo × List Call :=
  if type = K.WGPUErrorType_NoError then (userdata, [])
  else
    let logged : List Call :=
      [.printf ( LOG_PREFIX ++ " curr_texture_error type=%#.8x message=%s\n")
        [.uint type, .str message]]
    if strstr message "Surface timed out".toList ≠ none then
      ({ userdata with skip_curr_frame := true }, logged)
    else if strstr message "Surface is outdated".toList ≠ none then
      ({ userdata with skip_curr_frame := true }, logged)
    else if strstr message "Surface was lost".toList ≠ none then
      ({ userdata with skip_curr_frame := true }, logged)
    else (userdata, logged)

/-- One invocation of a request callback by the library: the status, the
object and the message it passes. -/
structure RequestResult where
  status : Nat
  handle : Handle
  message : List Char
  deriving Repr

/-- One invocation of the error-scope callback by the library. -/
structure ErrorReport where
  type : Nat
  message : List Char
  deriving Repr

/-- A window event that `glfwPollEvents` hands to a registered callback.
For a resize, `created` is what `wgpuDeviceCreateSwapChain` returns if the
callback calls it. -/
inductive Event
  | key (key scancode action mods : Int)
  | framebuffer_size (width height : Int) (created : Handle)
  deriving Repr

/-- What the libraries answer during one loop iteration. -/
structure FrameEnv where
  events : List Event
  next_texture : Handle
  errors : List ErrorReport
  command_encoder : Handle
  render_pass_encoder : Handle
  command_buffer : Handle
  deriving Repr

/-- What the libraries answer during one run of `main`.  `native1` and
`native2` are the two platform objects fetched before the surface is
created, and `frames` has one entry per iteration for which
`glfwWindowShouldClose` returned false; after them it returns true. -/
structure Env where
  glfwInit : Int
  «instance» : Handle
  window : Handle
  native1 : Handle
  native2 : Handle
  surface : Handle
  adapter_results : List RequestResult
  device_results : List RequestResult
  queue : Handle
  shader_module : Handle
  pipeline_layout : Handle
  surface_preferred_format : Nat
  render_pipeline : Handle
  width : Int
  height : Int
  swapchain : Handle
  frames : List FrameEnv
  deriving Repr

/-- The local variables of `main`, lines 118-124. -/
structure Locals where
  demo : demo
  window : Handle
  queue : Handle
  shader_module : Handle
  pipeline_layout : Handle
  render_pipeline : Handle
  ret : Int
  deriving Repr

/-- How the process ends: `main` returns a status, or an `assert` aborts. -/
inductive Exit
  | returned (status : Int)
  | aborted
  deriving DecidableEq, Repr

/-- A run of `main`: the final local variables, every external call in
order, how the run ended, and for each iteration that reached the test of
line 328 the value of `skip_curr_frame` it read. -/
structure Run where
  locals : Locals
  calls : List Call
  exit : Exit
  skips : List Bool
  deriving Repr

/-- The cleanup section, `main.c` lines 383-405. -/
def cleanup (l : Locals) : List Call :=
  (if l.render_pipeline ≠ 0 then [Call.wgpuRenderPipelineRelease l.render_pipeline] else []) ++
  (if l.pipeline_layout ≠ 0 then [Call.wgpuPipelineLayoutRelease l.pipeline_layout] else []) ++
  (if l.shader_module ≠ 0 then [Call.wgpuShaderModuleRelease l.shader_module] else []) ++
  (if l.demo.swapchain ≠ 0 then [Call.wgpuSwapChainRelease l.demo.swapchain] else []) ++
  (if l.queue ≠ 0 then [Call.wgpuQueueRelease l.queue] else []) ++
  (if l.demo.device ≠ 0 then [Call.wgpuDeviceRelease l.demo.device] else []) ++
  (if l.demo.adapter ≠ 0 then [Call.wgpuAdapterRelease l.demo.adapter] else []) ++
  (if l.demo.surface ≠ 0 then [Call.wgpuSurfaceRelease l.demo.surface] else []) ++
  (if l.window ≠ 0 then [Call.glfwDestroyWindow l.window] else []) ++
  (if l.demo.«instance» ≠ 0 then [Call.wgpuInstanceRelease l.demo.«instance»] else []) ++
  [Call.glfwTerminate]

/-- The label `cleanup_and_exit` reached with locals `l` after the calls
`c`: the cleanup section runs and `main` returns the literal `0` of line
406. -/
def cleanup_and_exit (l : Locals) (c : List Call) (skips : List Bool) : Run :=
  { locals := l, calls := c ++ cleanup l, exit := .returned 0, skips := skips }

/-- The failing branch of the macro `ASSERT_CHECK`, lines 126-134: a new
`ret` local to the block is declared (the outer one is untouched), the
message is printed, and control jumps to `cleanup_and_exit`. -/
def ASSERT_CHECK (expr : String) (line : Int) (l : Locals) (c : List Call) : Run :=
  cleanup_and_exit l
    (c ++ [.printf ( LOG_PREFIX ++ " assert failed %s: %s:%d\n")
      [.str expr.toList, .file, .int line]]) []

/-- The library delivers the adapter callback for `wgpuInstanceRequestAdapter`. -/
def deliver_adapter (K : Headers) : demo → List RequestResult → demo × List Call
  | d, [] => (d, [])
  | d, r :: rs =>
    let q := handle_request_adapter K r.status r.handle r.message d
    let t := deliver_adapter K q.1 rs
    (t.1, q.2 ++ t.2)

/-- The library delivers the device callback for `wgpuAdapterRequestDevice`. -/
def deliver_device (K : Headers) : demo → List RequestResult → demo × List Call
  | d, [] => (d, [])
  | d, r :: rs =>
    let q := handle_request_device K r.status r.handle r.message d
    let t := deliver_device K q.1 rs
    (t.1, q.2 ++ t.2)

/-- The library delivers the error-scope callback for
`wgpuDevicePopErrorScope`, before that call returns. -/
def deliver_errors (K : Headers) : demo → List ErrorReport → demo × List Call
  | d, [] => (d, [])
  | d, e :: es =>
    let q := handle_curr_texture_error K e.type e.message d
    let t := deliver_errors K q.1 es
    (t.1, q.2 ++ t.2)

/-- What `glfwPollEvents` does: it hands each pending event to the callback
registered for it; the user pointer of the window is `&demo`.  A failed
`assert` in a callback ends the process. -/
def dispatch_events (K : Headers) (window : Handle) : demo → List Event → Effect
  | d, [] => ⟨some d, [], false⟩
  | d, ev :: evs =>
    let r : Effect :=
      match ev with
      | .key key scancode action mods =>
        handle_glfw_key K window (some d) key scancode action mods
      | .framebuffer_size width height created =>
        handle_glfw_framebuffer_size window (some d) width height created
    if r.aborted then r
    else
      let t := dispatch_events K window (r.demo.getD d) evs
      ⟨t.demo, r.calls ++ t.calls, t.aborted⟩

/-- The surface creation block of the selected target, lines 156-241, up to
and including `wgpuInstanceCreateSurface`. -/
def create_surface (K : Headers) (T : Target) (E : Env) (inst window : Handle) : List Call :=
  match T with
  | .MACOS =>
    [.glfwGetCocoaWindow window E.native1, .setWantsLayer E.native1,
      .CAMetalLayer_layer E.native2, .setLayer E.native1 E.native2,
      .wgpuInstanceCreateSurface inst
        (.FromMetalLayer K.WGPUSType_SurfaceDescriptorFromMetalLayer E.native2) E.surface]
  | .LINUX_X11 =>
    [.glfwGetX11Display E.native1, .glfwGetX11Window window E.native2,
      .wgpuInstanceCreateSurface inst
        (.FromXlibWindow K.WGPUSType_SurfaceDescriptorFromXlibWindow E.native1 E.native2)
        E.surface]
  | .LINUX_WAYLAND =>
    [.glfwGetWaylandDisplay E.native1, .glfwGetWaylandWindow window E.native2,
      .wgpuInstanceCreateSurface inst
        (.FromWaylandSurface K.WGPUSType_SurfaceDescriptorFromWaylandSurface
          E.native1 E.native2) E.surface]
  | .WINDOWS =>
    [.glfwGetWin32Window window E.native1, .GetModuleHandle E.native2,
      .wgpuInstanceCreateSurface inst
        (.FromWindowsHWND K.WGPUSType_SurfaceDescriptorFromWindowsHWND
          E.native2 E.native1) E.surface]

/-- The source line of `ASSERT_CHECK(demo.surface)` for the selected target. -/
def surface_check_line : Target → Int
  | .MACOS => 176
  | .LINUX_X11 => 196
  | .LINUX_WAYLAND => 217
  | .WINDOWS => 237

/-- The descriptor passed to `wgpuDeviceCreateRenderPipeline`, lines 270-300. -/
def render_pipeline_descriptor (K : Headers) (pipeline_layout shader_module : Handle)
    (surface_preferred_format : Nat) : WGPURenderPipelineDescriptor where
  label := "render_pipeline"
  layout := pipeline_layout
  vertex_module := shader_module
  vertex_entryPoint := "vs_main"
  fragment_module := shader_module
  fragment_entryPoint := "fs_main"
  fragment_targetCount := 1
  fragment_targets := [⟨surface_preferred_format, K.WGPUColorWriteMask_All⟩]
  primitive_topology := K.WGPUPrimitiveTopology_TriangleList
  multisample_count := 1
  multisample_mask := 4294967295

/-- The descriptor passed to `wgpuCommandEncoderBeginRenderPass`, lines 343-361. -/
def render_pass_descriptor (K : Headers) (next_texture : Handle) : WGPURenderPassDescriptor where
  label := "render_pass_encoder"
  colorAttachmentCount := 1
  colorAttachments :=
    [{ view := next_texture, loadOp := K.WGPULoadOp_Clear, storeOp := K.WGPUStoreOp_Store,
       clearValue := { r := 0, g := 1, b := 0, a := 1 } }]

/-- The outcome of one loop iteration: the record afterwards, the calls, whether
an `assert` failed, and the value of `skip_curr_frame` read at line 328
(`none` when the iteration did not get there). -/
structure FrameResult where
  demo : demo
  calls : List Call
  aborted : Bool
  skip : Option Bool
  deriving Repr

/-- Lines 321-327: the flag is cleared, events are polled, and the texture
view is requested inside an error scope.  The result carries `aborted` when
an `assert` of a callback run by `glfwPollEvents` failed; the later calls
are then not made. -/
def frame_head (K : Headers) (window : Handle) (d : demo) (F : FrameEnv) : Effect :=
  let d0 : demo := { d with skip_curr_frame := false }
  let p := dispatch_events K window d0 F.events
  if p.aborted then ⟨p.demo, [Call.glfwPollEvents] ++ p.calls, true⟩
  else
    let d1 := p.demo.getD d0
    let e := deliver_errors K d1 F.errors
    ⟨some e.1,
      [Call.glfwPollEvents] ++ p.calls ++
        [.wgpuDevicePushErrorScope d1.device K.WGPUErrorFilter_Validation,
          .wgpuSwapChainGetCurrentTextureView d1.swapchain F.next_texture,
          .wgpuDevicePopErrorScope d1.device] ++ e.2,
      false⟩

/-- Lines 333-380: the frame is encoded, submitted and presented, and the
per-frame objects are released.  The second component tells whether one of
the `assert`s failed; the calls up to that point have been made. -/
def frame_render (K : Headers) (queue render_pipeline : Handle) (d : demo) (F : FrameEnv) :
    List Call × Bool :=
  if F.next_texture = 0 then ([], true)
  else
    let c1 : List Call :=
      [.wgpuDeviceCreateCommandEncoder d.device "command_encoder" F.command_encoder]
    if F.command_encoder = 0 then (c1, true)
    else
      let c2 := c1 ++
        [.wgpuCommandEncoderBeginRenderPass F.command_encoder
          (render_pass_descriptor K F.next_texture) F.render_pass_encoder]
      if F.render_pass_encoder = 0 then (c2, true)
      else
        let c3 := c2 ++
          [.wgpuRenderPassEncoderSetPipeline F.render_pass_encoder render_pipeline,
            .wgpuRenderPassEncoderDraw F.render_pass_encoder 3 1 0 0,
            .wgpuRenderPassEncoderEnd F.render_pass_encoder,
            .wgpuCommandEncoderFinish F.command_encoder "command_buffer" F.command_buffer]
        if F.command_buffer = 0 then (c3, true)
        else
          (c3 ++
            [.wgpuQueueSubmit queue 1 [F.command_buffer],
              .wgpuSwapChainPresent d.swapchain,
              .wgpuCommandBufferRelease F.command_buffer,
              .wgpuRenderPassEncoderRelease F.render_pass_encoder,
              .wgpuCommandEncoderRelease F.command_encoder,
              .wgpuTextureViewRelease F.next_texture], false)

/-- The body of the render loop, lines 321-380. -/
def frame (K : Headers) (window queue render_pipeline : Handle) (d : demo) (F : FrameEnv) :
    FrameResult :=
  let h := frame_head K window d F
  let d1 := h.demo.getD d
  if h.aborted then ⟨d1, h.calls, true, none⟩
  else if d1.skip_curr_frame then
    ⟨d1, h.calls ++
      (if F.next_texture ≠ 0 then [Call.wgpuTextureViewRelease F.next_texture] else []),
      false, some true⟩
  else
    let r := frame_render K queue render_pipeline d1 F
    ⟨d1, h.calls ++ r.1, r.2, some false⟩

/-- The outcome of the render loop. -/
structure LoopResult where
  demo : demo
  calls : List Call
  aborted : Bool
  skips : List Bool
  deriving Repr

/-- The render loop, lines 320-381: one iteration per entry of the list,
each preceded by a `glfwWindowShouldClose` that returns false; the loop
ends when it returns true or when an `assert` fails. -/
def render_loop (K : Headers) (window queue render_pipeline : Handle) :
    demo → List FrameEnv → LoopResult
  | d, [] => ⟨d, [.glfwWindowShouldClose window true], false, []⟩
  | d, F :: Fs =>
    let r := frame K window queue render_pipeline d F
    if r.aborted then
      ⟨r.demo, [Call.glfwWindowShouldClose window false] ++ r.calls, true, r.skip.toList⟩
    else
      let t := render_loop K window queue render_pipeline r.demo Fs
      ⟨t.demo, [Call.glfwWindowShouldClose window false] ++ r.calls ++ t.calls, t.aborted,
        r.skip.toList ++ t.skips⟩

/-- The function `main`, lines 115-407, for build target `T` against the
library answers `E`. -/
def main (K : Headers) (T : Target) (E : Env) : Run :=
  let l : Locals :=
    { demo := ⟨0, 0, 0, 0, ⟨0, 0, 0, 0, 0⟩, 0, false⟩, window := 0, queue := 0,
      shader_module := 0, pipeline_layout := 0, render_pipeline := 0, ret := K.EXIT_SUCCESS }
  let c : List Call :=
    [.frmwrk_setup_logging K.WGPULogLevel_Warn] ++
      (if T = .LINUX_WAYLAND then [Call.glfwInitHint K.GLFW_PLATFORM K.GLFW_PLATFORM_WAYLAND]
        else []) ++
      [.glfwInit E.glfwInit]
  if E.glfwInit = 0 then ASSERT_CHECK "glfwInit()" 142 l c
  else
  let l := { l with demo := { l.demo with «instance» := E.«instance» } }
  let c := c ++ [.wgpuCreateInstance E.«instance»]
  if l.demo.«instance» = 0 then ASSERT_CHECK "demo.instance" 145 l c
  else
  let l := { l with window := E.window }
  let c := c ++
    [.glfwWindowHint K.GLFW_CLIENT_API K.GLFW_NO_API,
      .glfwCreateWindow 640 480 "triangle [wgpu-native + glfw]" 0 0 E.window]
  if l.window = 0 then ASSERT_CHECK "window" 150 l c
  else
  let c := c ++
    [.glfwSetWindowUserPointer l.window, .glfwSetKeyCallback l.window,
      .glfwSetFramebufferSizeCallback l.window]
  let l := { l with demo := { l.demo with surface := E.surface } }
  let c := c ++ create_surface K T E l.demo.«instance» l.window
  if l.demo.surface = 0 then ASSERT_CHECK "demo.surface" (surface_check_line T) l c
  else
  let a := deliver_adapter K l.demo E.adapter_results
  let c := c ++ [.wgpuInstanceRequestAdapter l.demo.«instance» l.demo.surface] ++ a.2
  let l := { l with demo := a.1 }
  if l.demo.adapter = 0 then ASSERT_CHECK "demo.adapter" 248 l c
  else
  let v := deliver_device K l.demo E.device_results
  let c := c ++ [.wgpuAdapterRequestDevice l.demo.adapter] ++ v.2
  let l := { l with demo := v.1 }
  if l.demo.device = 0 then ASSERT_CHECK "demo.device" 251 l c
  else
  let l := { l with queue := E.queue }
  let c := c ++ [.wgpuDeviceGetQueue l.demo.device E.queue]
  if l.queue = 0 then ASSERT_CHECK "queue" 254 l c
  else
  let l := { l with shader_module := E.shader_module }
  let c := c ++ [.frmwrk_load_shader_module l.demo.device "shader.wgsl" E.shader_module]
  if l.shader_module = 0 then ASSERT_CHECK "shader_module" 257 l c
  else
  let l := { l with pipeline_layout := E.pipeline_layout }
  let c := c ++
    [.wgpuDeviceCreatePipelineLayout l.demo.device "pipeline_layout" E.pipeline_layout]
  if l.pipeline_layout = 0 then ASSERT_CHECK "pipeline_layout" 263 l c
  else
  let surface_preferred_format := E.surface_preferred_format
  let c := c ++
    [.wgpuSurfaceGetPreferredFormat l.demo.surface l.demo.adapter surface_preferred_format]
  if surface_preferred_format = K.WGPUTextureFormat_Undefined then
    ASSERT_CHECK "surface_preferred_format != WGPUTextureFormat_Undefined" 267 l c
  else
  let l := { l with render_pipeline := E.render_pipeline }
  let c := c ++
    [.wgpuDeviceCreateRenderPipeline l.demo.device
      (render_pipeline_descriptor K l.pipeline_layout l.shader_module surface_preferred_format)
      E.render_pipeline]
  if l.render_pipeline = 0 then ASSERT_CHECK "render_pipeline" 301 l c
  else
  let config : WGPUSwapChainDescriptor :=
    { usage := K.WGPUTextureUsage_RenderAttachment, format := surface_preferred_format,
      width := 0, height := 0, presentMode := K.WGPUPresentMode_Fifo }
  let config := { config with width := toUint32 E.width, height := toUint32 E.height }
  let l := { l with demo := { l.demo with config := config, swapchain := E.swapchain } }
  let c := c ++
    [.glfwGetWindowSize l.window E.width E.height,
      .wgpuDeviceCreateSwapChain l.demo.device l.demo.surface config E.swapchain]
  if l.demo.swapchain = 0 then ASSERT_CHECK "demo.swapchain" 318 l c
  else
  let r := render_loop K l.window l.queue l.render_pipeline l.demo E.frames
  let l := { l with demo := r.demo }
  if r.aborted then { locals := l, calls := c ++ r.calls, exit := .aborted, skips := r.skips }
  else cleanup_and_exit l (c ++ r.calls) r.skips

/-! ## Specification-side notions -/

/-- A message reports a surface loss when it contains one of the three
phrases as a substring. -/
def mentions_surface_loss (message : List Char) : Prop :=
  "Surface timed out".toList <:+: message ∨
    "Surface is outdated".toList <:+: message ∨
    "Surface was lost".toList <:+: message

instance (message : List Char) : Decidable (mentions_surface_loss message) := by
  unfold mentions_surface_loss
  infer_instance

/-- The calls that encode, submit or present a frame. -/
def Call.isRenderWork : Call → Bool
  | .wgpuDeviceCreateCommandEncoder _ _ _ => true
  | .wgpuCommandEncoderBeginRenderPass _ _ _ => true
  | .wgpuRenderPassEncoderSetPipeline _ _ => true
  | .wgpuRenderPassEncoderDraw _ _ _ _ _ => true
  | .wgpuRenderPassEncoderEnd _ => true
  | .wgpuCommandEncoderFinish _ _ _ => true
  | .wgpuQueueSubmit _ _ _ => true
  | .wgpuSwapChainPresent _ => true
  | _ => false

/-- A draw call. -/
def Call.isDraw : Call → Bool
  | .wgpuRenderPassEncoderDraw _ _ _ _ _ => true
  | _ => false

/-- A queue submission. -/
def Call.isSubmit : Call → Bool
  | .wgpuQueueSubmit _ _ _ => true
  | _ => false

/-- A presentation of the swapchain. -/
def Call.isPresent : Call → Bool
  | .wgpuSwapChainPresent _ => true
  | _ => false

/-- The calls a callback run by `glfwPollEvents` or by
`wgpuDevicePopErrorScope` can make. -/
def Call.isCallbackCall : Call → Bool
  | .printf _ _ => true
  | .glfwGetWindowUserPointer _ => true
  | .wgpuGenerateReport _ => true
  | .frmwrk_print_global_report => true
  | .wgpuSwapChainRelease _ => true
  | .wgpuDeviceCreateSwapChain _ _ _ _ => true
  | _ => false

/-- A `printf` call. -/
def Call.isPrintf : Call → Bool
  | .printf _ _ => true
  | _ => false

/-- The record when `glfwPollEvents` has returned in an iteration entered
with record `d`. -/
def after_poll (K : Headers) (window : Handle) (d : demo) (F : FrameEnv) : demo :=
  (dispatch_events K window { d with skip_curr_frame := false } F.events).demo.getD
    { d with skip_curr_frame := false }

/-- The calls by which the loop body encodes, submits and presents a frame
and then releases the per-frame objects, lines 335-380. -/
def rendered_tail (K : Headers) (queue render_pipeline device swapchain : Handle)
    (F : FrameEnv) : List Call :=
  [Call.wgpuDeviceCreateCommandEncoder device "command_encoder" F.command_encoder,
    Call.wgpuCommandEncoderBeginRenderPass F.command_encoder
      { label := "render_pass_encoder", colorAttachmentCount := 1,
        colorAttachments :=
          [{ view := F.next_texture, loadOp := K.WGPULoadOp_Clear,
             storeOp := K.WGPUStoreOp_Store, clearValue := { r := 0, g := 1, b := 0, a := 1 } }] }
      F.render_pass_encoder,
    Call.wgpuRenderPassEncoderSetPipeline F.render_pass_encoder render_pipeline,
    Call.wgpuRenderPassEncoderDraw F.render_pass_encoder 3 1 0 0,
    Call.wgpuRenderPassEncoderEnd F.render_pass_encoder,
    Call.wgpuCommandEncoderFinish F.command_encoder "command_buffer" F.command_buffer,
    Call.wgpuQueueSubmit queue 1 [F.command_buffer],
    Call.wgpuSwapChainPresent swapchain,
    Call.wgpuCommandBufferRelease F.command_buffer,
    Call.wgpuRenderPassEncoderRelease F.render_pass_encoder,
    Call.wgpuCommandEncoderRelease F.command_encoder,
    Call.wgpuTextureViewRelease F.next_texture]

/-- A sample record: instance 1, surface 2, adapter 3, device 4, a 640 x 480
configuration and swapchain 5. -/
def sample_demo : demo := ⟨1, 2, 3, 4, ⟨16, 23, 640, 480, 2⟩, 5, false⟩

/-- The calls that release an object created during initialization and used
by the loop: the device, the queue, the render pipeline or the swapchain. -/
def Call.releasesInitObject : Call → Bool
  | .wgpuDeviceRelease _ => true
  | .wgpuQueueRelease _ => true
  | .wgpuRenderPipelineRelease _ => true
  | .wgpuSwapChainRelease _ => true
  | _ => false

/-- A release of a swapchain. -/
def Call.isSwapChainRelease : Call → Bool
  | .wgpuSwapChainRelease _ => true
  | _ => false

/-- A resize event. -/
def Event.isResize : Event → Bool
  | .framebuffer_size _ _ _ => true
  | .key _ _ _ _ => false

/-- One checked initialization step of `main`: what it does to the locals
and to the calls made so far, and the expression, text and line of the
`ASSERT_CHECK` that follows it. -/
structure InitStep where
  perform : Locals → List Call → Locals × List Call
  ok : Locals → Bool
  expr : String
  line : Int

/-- Runs checked steps in order; the first failed check jumps to
`cleanup_and_exit`, and `continuation` runs when all checks pass. -/
def run_steps (continuation : Locals → List Call → Run) :
    List InitStep → Locals → List Call → Run
  | [], l, c => continuation l c
  | s :: ss, l, c =>
    if s.ok (s.perform l c).1 then
      run_steps continuation ss (s.perform l c).1 (s.perform l c).2
    else ASSERT_CHECK s.expr s.line (s.perform l c).1 (s.perform l c).2

/-- Lines 136-301 of `main` as a list of checked steps. -/
def init_sequence (K : Headers) (T : Target) (E : Env) : List InitStep :=
  [ { perform := fun l c =>
        (l, c ++ ([.frmwrk_setup_logging K.WGPULogLevel_Warn] ++
          (if T = .LINUX_WAYLAND then
            [Call.glfwInitHint K.GLFW_PLATFORM K.GLFW_PLATFORM_WAYLAND] else []) ++
          [.glfwInit E.glfwInit])),
      ok := fun _ => decide (E.glfwInit ≠ 0), expr := "glfwInit()", line := 142 },
    { perform := fun l c =>
        ({ l with demo := { l.demo with «instance» := E.«instance» } },
          c ++ [.wgpuCreateInstance E.«instance»]),
      ok := fun l => decide (l.demo.«instance» ≠ 0), expr := "demo.instance", line := 145 },
    { perform := fun l c =>
        ({ l with window := E.window },
          c ++ [.glfwWindowHint K.GLFW_CLIENT_API K.GLFW_NO_API,
            .glfwCreateWindow 640 480 "triangle [wgpu-native + glfw]" 0 0 E.window]),
      ok := fun l => decide (l.window ≠ 0), expr := "window", line := 150 },
    { perform := fun l c =>
        ({ l with demo := { l.demo with surface := E.surface } },
          c ++ [.glfwSetWindowUserPointer l.window, .glfwSetKeyCallback l.window,
            .glfwSetFramebufferSizeCallback l.window] ++
            create_surface K T E l.demo.«instance» l.window),
      ok := fun l => decide (l.demo.surface ≠ 0), expr := "demo.surface",
      line := surface_check_line T },
    { perform := fun l c =>
        ({ l with demo := (deliver_adapter K l.demo E.adapter_results).1 },
          c ++ [.wgpuInstanceRequestAdapter l.demo.«instance» l.demo.surface] ++
            (deliver_adapter K l.demo E.adapter_results).2),
      ok := fun l => decide (l.demo.adapter ≠ 0), expr := "demo.adapter", line := 248 },
    { perform := fun l c =>
        ({ l with demo := (deliver_device K l.demo E.device_results).1 },
          c ++ [.wgpuAdapterRequestDevice l.demo.adapter] ++
            (deliver_device K l.demo E.device_results).2),
      ok := fun l => decide (l.demo.device ≠ 0), expr := "demo.device", line := 251 },
    { perform := fun l c =>
        ({ l with queue := E.queue }, c ++ [.wgpuDeviceGetQueue l.demo.device E.queue]),
      ok := fun l => decide (l.queue ≠ 0), expr := "queue", line := 254 },
    { perform := fun l c =>
        ({ l with shader_module := E.shader_module },
          c ++ [.frmwrk_load_shader_module l.demo.device "shader.wgsl" E.shader_module]),
      ok := fun l => decide (l.shader_module ≠ 0), expr := "shader_module", line := 257 },
    { perform := fun l c =>
        ({ l with pipeline_layout := E.pipeline_layout },
          c ++ [.wgpuDeviceCreatePipelineLayout l.demo.device "pipeline_layout"
            E.pipeline_layout]),
      ok := fun l => decide (l.pipeline_layout ≠ 0), expr := "pipeline_layout", line := 263 },
    { perform := fun l c =>
        (l, c ++ [.wgpuSurfaceGetPreferredFormat l.demo.surface l.demo.adapter
          E.surface_preferred_format]),
      ok := fun _ => decide (E.surface_preferred_format ≠ K.WGPUTextureFormat_Undefined),
      expr := "surface_preferred_format != WGPUTextureFormat_Undefined", line := 267 },
    { perform := fun l c =>
        ({ l with render_pipeline := E.render_pipeline },
          c ++ [.wgpuDeviceCreateRenderPipeline l.demo.device
            (render_pipeline_descriptor K l.pipeline_layout l.shader_module
              E.surface_preferred_format) E.render_pipeline]),
      ok := fun l => decide (l.render_pipeline ≠ 0), expr := "render_pipeline", line := 301 } ]

/-- Lines 320-407 of `main`: the render loop, then the cleanup section. -/
def main_loop (K : Headers) (E : Env) (l : Locals) (c : List Call) : Run :=
  let r := render_loop K l.window l.queue l.render_pipeline l.demo E.frames
  if r.aborted then
    { locals := { l with demo := r.demo }, calls := c ++ r.calls, exit := .aborted,
      skips := r.skips }
  else cleanup_and_exit { l with demo := r.demo } (c ++ r.calls) r.skips

/-- Lines 303-407 of `main`: the swapchain is configured and created, then
the loop and the cleanup section run. -/
def main_swapchain (K : Headers) (E : Env) (l : Locals) (c : List Call) : Run :=
  let config : WGPUSwapChainDescriptor :=
    { usage := K.WGPUTextureUsage_RenderAttachment, format := E.surface_preferred_format,
      width := toUint32 E.width, height := toUint32 E.height,
      presentMode := K.WGPUPresentMode_Fifo }
  let l1 := { l with demo := { l.demo with config := config, swapchain := E.swapchain } }
  let c1 := c ++
    [.glfwGetWindowSize l.window E.width E.height,
      .wgpuDeviceCreateSwapChain l.demo.device l.demo.surface config E.swapchain]
  if l1.demo.swapchain = 0 then ASSERT_CHECK "demo.swapchain" 318 l1 c1
  else main_loop K E l1 c1

/-- The initial values of the local variables of `main`, lines 118-124. -/
def initial_locals (K : Headers) : Locals :=
  { demo := ⟨0, 0, 0, 0, ⟨0, 0, 0, 0, 0⟩, 0, false⟩, window := 0, queue := 0,
    shader_module := 0, pipeline_layout := 0, render_pipeline := 0, ret := K.EXIT_SUCCESS }

/-- The call `glfwTerminate`. -/
def Call.isTerminate : Call → Bool
  | .glfwTerminate => true
  | _ => false

/-- The swapchain a call creates: the non-null result of
`wgpuDeviceCreateSwapChain`. -/
def Call.swapchainCreated : Call → Option Handle
  | .wgpuDeviceCreateSwapChain _ _ _ ret => if ret ≠ 0 then some ret else none
  | _ => none

/-- The swapchain a call releases. -/
def Call.swapchainReleased : Call → Option Handle
  | .wgpuSwapChainRelease h => some h
  | _ => none

/-- The swapchains created by a sequence of calls, in order. -/
def swapchains_created (calls : List Call) : List Handle :=
  calls.filterMap Call.swapchainCreated

/-- The swapchains released by a sequence of calls, in order. -/
def swapchains_released (calls : List Call) : List Handle :=
  calls.filterMap Call.swapchainReleased

/-- The calls of the loop: the loop condition and `glfwPollEvents`. -/
def Call.isLoopCall : Call → Bool
  | .glfwWindowShouldClose _ _ => true
  | .glfwPollEvents => true
  | _ => false

/-- The calls that lines 136-301 of `main` can make. -/
def Call.isInitCall : Call → Bool
  | .printf _ _ => true
  | .frmwrk_setup_logging _ => true
  | .frmwrk_load_shader_module _ _ _ => true
  | .glfwInitHint _ _ => true
  | .glfwInit _ => true
  | .glfwWindowHint _ _ => true
  | .glfwCreateWindow _ _ _ _ _ _ => true
  | .glfwSetWindowUserPointer _ => true
  | .glfwSetKeyCallback _ => true
  | .glfwSetFramebufferSizeCallback _ => true
  | .glfwGetCocoaWindow _ _ => true
  | .setWantsLayer _ => true
  | .CAMetalLayer_layer _ => true
  | .setLayer _ _ => true
  | .glfwGetX11Display _ => true
  | .glfwGetX11Window _ _ => true
  | .glfwGetWaylandDisplay _ => true
  | .glfwGetWaylandWindow _ _ => true
  | .glfwGetWin32Window _ _ => true
  | .GetModuleHandle _ => true
  | .wgpuCreateInstance _ => true
  | .wgpuInstanceCreateSurface _ _ _ => true
  | .wgpuInstanceRequestAdapter _ _ => true
  | .wgpuAdapterRequestDevice _ => true
  | .wgpuDeviceGetQueue _ _ => true
  | .wgpuDeviceCreatePipelineLayout _ _ _ => true
  | .wgpuSurfaceGetPreferredFormat _ _ _ => true
  | .wgpuDeviceCreateRenderPipeline _ _ _ => true
  | _ => false

/-- What holds of the locals and of the calls made while lines 136-301 run:
`ret` still has its initial value, no swapchain is held, and only
initialization calls have been made. -/
def init_invariant (K : Headers) (l : Locals) (c : List Call) : Prop :=
  l.ret = K.EXIT_SUCCESS ∧ l.demo.swapchain = 0 ∧ ∀ x ∈ c, x.isInitCall = true

/-- The calls made by the statements of the render loop themselves, lines
320-380. -/
def Call.isBodyCall : Call → Bool
  | .glfwWindowShouldClose _ _ => true
  | .glfwPollEvents => true
  | .wgpuDevicePushErrorScope _ _ => true
  | .wgpuSwapChainGetCurrentTextureView _ _ => true
  | .wgpuDevicePopErrorScope _ => true
  | .wgpuDeviceCreateCommandEncoder _ _ _ => true
  | .wgpuCommandEncoderBeginRenderPass _ _ _ => true
  | .wgpuRenderPassEncoderSetPipeline _ _ => true
  | .wgpuRenderPassEncoderDraw _ _ _ _ _ => true
  | .wgpuRenderPassEncoderEnd _ => true
  | .wgpuCommandEncoderFinish _ _ _ => true
  | .wgpuQueueSubmit _ _ _ => true
  | .wgpuSwapChainPresent _ => true
  | .wgpuCommandBufferRelease _ => true
  | .wgpuRenderPassEncoderRelease _ => true
  | .wgpuCommandEncoderRelease _ => true
  | .wgpuTextureViewRelease _ => true
  | _ => false

/-- The cleanup section as the specification words it: of the ten handles,
taken in the fixed order, each non-null one is released once and no null one
is, and `glfwTerminate` is called last. -/
def expected_cleanup (l : Locals) : List Call :=
  (([ (l.render_pipeline, Call.wgpuRenderPipelineRelease l.render_pipeline),
      (l.pipeline_layout, Call.wgpuPipelineLayoutRelease l.pipeline_layout),
      (l.shader_module, Call.wgpuShaderModuleRelease l.shader_module),
      (l.demo.swapchain, Call.wgpuSwapChainRelease l.demo.swapchain),
      (l.queue, Call.wgpuQueueRelease l.queue),
      (l.demo.device, Call.wgpuDeviceRelease l.demo.device),
      (l.demo.adapter, Call.wgpuAdapterRelease l.demo.adapter),
      (l.demo.surface, Call.wgpuSurfaceRelease l.demo.surface),
      (l.window, Call.glfwDestroyWindow l.window),
      (l.demo.«instance», Call.wgpuInstanceRelease l.demo.«instance») ].filter
    (fun p => decide (p.1 ≠ 0))).map Prod.snd) ++ [Call.glfwTerminate]

/-- What every run of `main` satisfies: it returns 0 or is aborted, `ret`
keeps its initial value, the recorded flags are those of the render loop (or
none), and a run that returns ends with the cleanup section, calls
`glfwTerminate` nowhere before it, and has released the swapchains it
created. -/
def run_facts (K : Headers) (E : Env) (r : Run) : Prop :=
  (r.exit = Exit.returned 0 ∨ r.exit = Exit.aborted) ∧
  r.locals.ret = K.EXIT_SUCCESS ∧
  (r.skips = [] ∨ ∃ window queue render_pipeline d,
    r.skips = (render_loop K window queue render_pipeline d E.frames).skips) ∧
  (r.exit = Exit.returned 0 →
    ∃ pre, r.calls = pre ++ cleanup r.locals ∧ pre.countP Call.isTerminate = 0 ∧
      swapchains_released r.calls = swapchains_created r.calls)

/-- The handle a request leaves in the record: the one passed by the last
callback invocation that reports success, or the previous value when there
is none. -/
def last_success (success : Nat) : Handle → List RequestResult → Handle
  | current, [] => current
  | current, r :: rs =>
    last_success success (if r.status = success then r.handle else current) rs

/-- Whether initialization step `k` (1 to 12, in the order of `main`)
yields a usable result: a non-zero return of `glfwInit`, a non-null handle,
or a preferred format other than `WGPUTextureFormat_Undefined`. -/
def step_ok (K : Headers) (E : Env) : Nat → Bool
  | 1 => decide (E.glfwInit ≠ 0)
  | 2 => decide (E.«instance» ≠ 0)
  | 3 => decide (E.window ≠ 0)
  | 4 => decide (E.surface ≠ 0)
  | 5 => decide (last_success K.WGPURequestAdapterStatus_Success 0 E.adapter_results ≠ 0)
  | 6 => decide (last_success K.WGPURequestDeviceStatus_Success 0 E.device_results ≠ 0)
  | 7 => decide (E.queue ≠ 0)
  | 8 => decide (E.shader_module ≠ 0)
  | 9 => decide (E.pipeline_layout ≠ 0)
  | 10 => decide (E.surface_preferred_format ≠ K.WGPUTextureFormat_Undefined)
  | 11 => decide (E.render_pipeline ≠ 0)
  | 12 => decide (E.swapchain ≠ 0)
  | _ => true

/-- The initialization step (1 to 12) that a call performs, if any. -/
def Call.initStep : Call → Option Nat
  | .glfwInit _ => some 1
  | .wgpuCreateInstance _ => some 2
  | .glfwCreateWindow _ _ _ _ _ _ => some 3
  | .wgpuInstanceCreateSurface _ _ _ => some 4
  | .wgpuInstanceRequestAdapter _ _ => some 5
  | .wgpuAdapterRequestDevice _ => some 6
  | .wgpuDeviceGetQueue _ _ => some 7
  | .frmwrk_load_shader_module _ _ _ => some 8
  | .wgpuDeviceCreatePipelineLayout _ _ _ => some 9
  | .wgpuSurfaceGetPreferredFormat _ _ _ => some 10
  | .wgpuDeviceCreateRenderPipeline _ _ _ => some 11
  | .wgpuDeviceCreateSwapChain _ _ _ _ => some 12
  | _ => none

/-- The initialization steps performed by a sequence of calls, in order. -/
def init_steps (calls : List Call) : List Nat := calls.filterMap Call.initStep

/-- An error report makes the frame be skipped when its type is not
`WGPUErrorType_NoError` and its message mentions a surface loss. -/
def skips_frame (K : Headers) (e : ErrorReport) : Prop :=
  e.type ≠ K.WGPUErrorType_NoError ∧ mentions_surface_loss e.message

/-- The calls of the cleanup section. -/
def Call.isCleanupCall : Call → Bool
  | .wgpuRenderPipelineRelease _ => true
  | .wgpuPipelineLayoutRelease _ => true
  | .wgpuShaderModuleRelease _ => true
  | .wgpuSwapChainRelease _ => true
  | .wgpuQueueRelease _ => true
  | .wgpuDeviceRelease _ => true
  | .wgpuAdapterRelease _ => true
  | .wgpuSurfaceRelease _ => true
  | .glfwDestroyWindow _ => true
  | .wgpuInstanceRelease _ => true
  | .glfwTerminate => true
  | _ => false

/-- A sufficient condition for no `assert` to fail in an iteration: every
resize event gets a non-null swapchain, and the frame is skipped or its
texture view, command encoder, render pass encoder and command buffer are
all non-null. -/
def frame_asserts_hold (K : Headers) (F : FrameEnv) : Prop :=
  (∀ width height created, Event.framebuffer_size width height created ∈ F.events →
    created ≠ 0) ∧
  ((∃ e ∈ F.errors, skips_frame K e) ∨
    (F.next_texture ≠ 0 ∧ F.command_encoder ≠ 0 ∧ F.render_pass_encoder ≠ 0 ∧
      F.command_buffer ≠ 0))

/-- Sample library answers: every initialization step succeeds (instance 1,
window 10, surface 2, adapter 3, device 4, queue 11, shader module 13,
pipeline layout 14, format 23, render pipeline 12, a 640 x 480 window,
swapchain 5) and the window is closed before the first frame. -/
def sample_env : Env :=
  { glfwInit := 1, «instance» := 1, window := 10, native1 := 20, native2 := 21, surface := 2,
    adapter_results := [⟨0, 3, []⟩], device_results := [⟨0, 4, []⟩], queue := 11,
    shader_module := 13, pipeline_layout := 14, surface_preferred_format := 23,
    render_pipeline := 12, width := 640, height := 480, swapchain := 5, frames := [] }

/-! ## Lemmas -/

theorem strstr_ne_none_iff (haystack needle : List Char) :
    strstr haystack needle ≠ none ↔ needle <:+: haystack := by
  induction haystack with
  | nil =>
    simp only [strstr]
    split <;> rename_i hp
    · simp at hp; subst hp; simp
    · simp at hp; simp; exact hp
  | cons c rest ih =>
    simp only [strstr]
    rw [List.infix_cons_iff]
    split <;> rename_i hp
    · simp at hp; simp [hp]
    · simp at hp; simp [hp]; simpa using ih

/-! ## The error-scope callback -/

/-- C1: after `handle_curr_texture_error`, `skip_curr_frame` is true exactly
when it was true before, or the type is not `WGPUErrorType_NoError` and the
message contains one of the three surface phrases; a `NoError` report and a
message with none of the phrases leave the flag as it was. -/
theorem C1_surface_loss_decision (K : Headers) (type : Nat) (message : List Char) (d : demo) :
    ((handle_curr_texture_error K type message d).1.skip_curr_frame = true ↔
      (d.skip_curr_frame = true ∨
        (type ≠ K.WGPUErrorType_NoError ∧
          ("Surface timed out".toList <:+: message ∨
            "Surface is outdated".toList <:+: message ∨
            "Surface was lost".toList <:+: message)))) ∧
    (type = K.WGPUErrorType_NoError →
      (handle_curr_texture_error K type message d).1.skip_curr_frame = d.skip_curr_frame) ∧
    (¬ ("Surface timed out".toList <:+: message ∨
          "Surface is outdated".toList <:+: message ∨
          "Surface was lost".toList <:+: message) →
      (handle_curr_texture_error K type message d).1.skip_curr_frame = d.skip_curr_frame) := by
  unfold handle_curr_texture_error
  generalize "Surface timed out".toList = p1
  generalize "Surface is outdated".toList = p2
  generalize "Surface was lost".toList = p3
  have h1 := strstr_ne_none_iff message p1
  have h2 := strstr_ne_none_iff message p2
  have h3 := strstr_ne_none_iff message p3
  by_cases ht : type = K.WGPUErrorType_NoError
  · simp [ht]
  · by_cases a1 : strstr message p1 = none <;> by_cases a2 : strstr message p2 = none <;>
      by_cases a3 : strstr message p3 = none <;>
      simp [ht, a1, a2, a3, ← h1, ← h2, ← h3]

/-- C1 at a `NoError` report whose message mentions a lost surface (the flag
is left as it was) and at an error report with such a message (the flag is
set). -/
theorem C1_surface_loss_decision_witness :
    (handle_curr_texture_error stdHeaders 0 "Surface was lost".toList
        sample_demo).1.skip_curr_frame = sample_demo.skip_curr_frame ∧
    (handle_curr_texture_error stdHeaders 1 "the Surface was lost".toList
        sample_demo).1.skip_curr_frame = true :=
  ⟨(C1_surface_loss_decision stdHeaders 0 "Surface was lost".toList sample_demo).2.1 rfl,
    (C1_surface_loss_decision stdHeaders 1 "the Surface was lost".toList sample_demo).1.mpr
      (Or.inr ⟨by decide, Or.inr (Or.inr ⟨"the ".toList, [], rfl⟩)⟩)⟩

/-! ## The resize callback -/

/-- C5: for a record with a non-null swapchain and a size other than (0, 0),
`handle_glfw_framebuffer_size` stores the size in `config` as 32-bit unsigned
values, releases the old swapchain once, then creates one swapchain from the
record's device, its surface and the updated config and stores it; the other
fields are unchanged, and the release comes before the creation. -/
theorem C5_resize_effect (window : Handle) (d : demo) (width height : Int) (created : Handle)
    (hs : d.swapchain ≠ 0) (hz : ¬ (width = 0 ∧ height = 0)) :
    ∃ d1 : demo,
      (handle_glfw_framebuffer_size window (some d) width height created).demo = some d1 ∧
      d1.config.width = (width % 2 ^ 32).toNat ∧
      d1.config.height = (height % 2 ^ 32).toNat ∧
      d1.swapchain = created ∧
      d1.config.usage = d.config.usage ∧
      d1.config.format = d.config.format ∧
      d1.config.presentMode = d.config.presentMode ∧
      d1.«instance» = d.«instance» ∧
      d1.surface = d.surface ∧
      d1.adapter = d.adapter ∧
      d1.device = d.device ∧
      d1.skip_curr_frame = d.skip_curr_frame ∧
      (handle_glfw_framebuffer_size window (some d) width height created).calls =
        [Call.glfwGetWindowUserPointer window,
          Call.wgpuSwapChainRelease d.swapchain,
          Call.wgpuDeviceCreateSwapChain d.device d.surface d1.config created] ∧
      (handle_glfw_framebuffer_size window (some d) width height created).calls.filter
          Call.isGPU =
        [Call.wgpuSwapChainRelease d.swapchain,
          Call.wgpuDeviceCreateSwapChain d1.device d1.surface d1.config created] := by
  refine ⟨{ d with config := { d.config with width := toUint32 width,
                                             height := toUint32 height },
                   swapchain := created }, ?_⟩
  simp [handle_glfw_framebuffer_size, hs, hz, toUint32, Call.isGPU]

/-- C5 at a resize to 800 x 600 of a record holding swapchain 7. -/
theorem C5_resize_effect_witness :
    ∃ d1 : demo,
      (handle_glfw_framebuffer_size 1 (some ⟨2, 3, 4, 5, ⟨16, 23, 640, 480, 2⟩, 7, false⟩)
        800 600 9).demo = some d1 ∧
      d1.config.width = 800 ∧ d1.config.height = 600 ∧ d1.swapchain = 9 ∧
      (handle_glfw_framebuffer_size 1 (some ⟨2, 3, 4, 5, ⟨16, 23, 640, 480, 2⟩, 7, false⟩)
        800 600 9).calls.filter Call.isGPU =
        [Call.wgpuSwapChainRelease 7,
          Call.wgpuDeviceCreateSwapChain 5 3 ⟨16, 23, 800, 600, 2⟩ 9] := by
  obtain ⟨d1, h1, h2, h3, h4, h5, h6, h7, _, h9, _, h11, _, _, h14⟩ :=
    C5_resize_effect 1 ⟨2, 3, 4, 5, ⟨16, 23, 640, 480, 2⟩, 7, false⟩ 800 600 9
      (by decide) (by decide)
  refine ⟨d1, h1, ?_, ?_, h4, ?_⟩
  · rw [h2]; decide
  · rw [h3]; decide
  · rw [h14, h9, h11]
    have hc : d1.config = ⟨16, 23, 800, 600, 2⟩ := by
      cases hd : d1.config
      simp only [hd] at h2 h3 h5 h6 h7
      simp only [WGPUSwapChainDescriptor.mk.injEq]
      refine ⟨h5, h6, ?_, ?_, h7⟩
      · rw [h2]; decide
      · rw [h3]; decide
    rw [hc]

/-- C6: `handle_glfw_framebuffer_size` leaves the record unchanged and makes
no GPU call exactly when the size is (0, 0), or the window has no record
attached, or the record's swapchain is null; in every other case the old
swapchain is released and a new one is created and stored. -/
theorem C6_resize_noop_iff (window : Handle) (userPointer : Option demo) (width height : Int)
    (created : Handle) :
    (((handle_glfw_framebuffer_size window userPointer width height created).demo = userPointer ∧
        (handle_glfw_framebuffer_size window userPointer width height created).calls.filter
          Call.isGPU = []) ↔
      ((width = 0 ∧ height = 0) ∨ userPointer = none ∨
        ∃ d, userPointer = some d ∧ d.swapchain = 0)) ∧
    (∀ d, userPointer = some d → d.swapchain ≠ 0 → ¬ (width = 0 ∧ height = 0) →
      (handle_glfw_framebuffer_size window userPointer width height created).calls.filter
          Call.isGPU =
        [Call.wgpuSwapChainRelease d.swapchain,
          Call.wgpuDeviceCreateSwapChain d.device d.surface
            { d.config with width := toUint32 width, height := toUint32 height } created] ∧
      (handle_glfw_framebuffer_size window userPointer width height created).demo =
        some { d with config := { d.config with width := toUint32 width,
                                                height := toUint32 height },
                      swapchain := created }) := by
  constructor
  · by_cases hz : width = 0 ∧ height = 0
    · simp [handle_glfw_framebuffer_size, hz]
    · cases userPointer with
      | none => simp [handle_glfw_framebuffer_size, hz, Call.isGPU]
      | some d =>
        by_cases hs : d.swapchain = 0
        · simp [handle_glfw_framebuffer_size, hz, hs, Call.isGPU]
        · simp [handle_glfw_framebuffer_size, hz, hs, Call.isGPU]
  · intro d hd hs hz
    subst hd
    simp [handle_glfw_framebuffer_size, hs, hz, Call.isGPU]

/-- C6 at a resize to 0 x 600 (exactly one dimension is zero) of a record
holding swapchain 7: the swapchain is released and recreated. -/
theorem C6_resize_noop_iff_witness :
    (handle_glfw_framebuffer_size 1 (some ⟨2, 3, 4, 5, ⟨16, 23, 640, 480, 2⟩, 7, false⟩)
        0 600 9).calls.filter Call.isGPU =
      [Call.wgpuSwapChainRelease 7,
        Call.wgpuDeviceCreateSwapChain 5 3 ⟨16, 23, 0, 600, 2⟩ 9] ∧
    (handle_glfw_framebuffer_size 1 (some ⟨2, 3, 4, 5, ⟨16, 23, 640, 480, 2⟩, 7, false⟩)
        0 600 9).demo = some ⟨2, 3, 4, 5, ⟨16, 23, 0, 600, 2⟩, 9, false⟩ :=
  (C6_resize_noop_iff 1 (some ⟨2, 3, 4, 5, ⟨16, 23, 640, 480, 2⟩, 7, false⟩) 0 600 9).2
    ⟨2, 3, 4, 5, ⟨16, 23, 640, 480, 2⟩, 7, false⟩ rfl (by decide) (by decide)

/-! ## One loop iteration -/

theorem handle_glfw_key_calls (K : Headers) (window : Handle) (p : Option demo)
    (key scancode action mods : Int) :
    ∀ c ∈ (handle_glfw_key K window p key scancode action mods).calls,
      c.isCallbackCall = true := by
  unfold handle_glfw_key
  split_ifs
  · cases p with
    | none => simp [Call.isCallbackCall]
    | some d =>
      by_cases hi : d.«instance» = 0 <;> simp [hi, Call.isCallbackCall]
  · simp

theorem handle_glfw_framebuffer_size_calls (window : Handle) (p : Option demo)
    (width height : Int) (created : Handle) :
    ∀ c ∈ (handle_glfw_framebuffer_size window p width height created).calls,
      c.isCallbackCall = true := by
  unfold handle_glfw_framebuffer_size
  split_ifs
  · simp
  · cases p with
    | none => simp [Call.isCallbackCall]
    | some d =>
      by_cases hs : d.swapchain = 0 <;> simp [hs, Call.isCallbackCall]

theorem dispatch_events_calls (K : Headers) (window : Handle) (evs : List Event) :
    ∀ (d : demo), ∀ c ∈ (dispatch_events K window d evs).calls, c.isCallbackCall = true := by
  induction evs with
  | nil => intro d c hc; simp [dispatch_events] at hc
  | cons ev evs ih =>
    intro d c hc
    unfold dispatch_events at hc
    cases ev with
    | key key scancode action mods =>
      simp only at hc
      split_ifs at hc
      · exact handle_glfw_key_calls K window _ key scancode action mods c hc
      · simp only [List.mem_append] at hc
        rcases hc with hc | hc
        · exact handle_glfw_key_calls K window _ key scancode action mods c hc
        · exact ih _ c hc
    | framebuffer_size width height created =>
      simp only at hc
      split_ifs at hc
      · exact handle_glfw_framebuffer_size_calls window _ width height created c hc
      · simp only [List.mem_append] at hc
        rcases hc with hc | hc
        · exact handle_glfw_framebuffer_size_calls window _ width height created c hc
        · exact ih _ c hc

theorem handle_curr_texture_error_calls (K : Headers) (type : Nat) (message : List Char)
    (d : demo) : ∀ c ∈ (handle_curr_texture_error K type message d).2, c.isPrintf = true := by
  unfold handle_curr_texture_error
  split_ifs <;> simp [Call.isPrintf]

theorem deliver_errors_calls (K : Headers) (es : List ErrorReport) :
    ∀ (d : demo), ∀ c ∈ (deliver_errors K d es).2, c.isPrintf = true := by
  induction es with
  | nil => intro d c hc; simp [deliver_errors] at hc
  | cons e es ih =>
    intro d c hc
    simp only [deliver_errors, List.mem_append] at hc
    rcases hc with hc | hc
    · exact handle_curr_texture_error_calls K _ _ _ c hc
    · exact ih _ c hc

theorem isRenderWork_of_callback (c : Call) (h : c.isCallbackCall = true) :
    c.isRenderWork = false := by
  cases c <;> first | rfl | cases h

theorem isRenderWork_of_printf (c : Call) (h : c.isPrintf = true) :
    c.isRenderWork = false := by
  cases c <;> first | rfl | cases h

theorem render_loop_calls_head (K : Headers) (window queue render_pipeline : Handle)
    (d : demo) (Fs : List FrameEnv) :
    ∃ b rest, (render_loop K window queue render_pipeline d Fs).calls =
      Call.glfwWindowShouldClose window b :: rest := by
  cases Fs with
  | nil => exact ⟨true, [], rfl⟩
  | cons F Fs =>
    unfold render_loop
    simp only
    split_ifs
    · exact ⟨false, _, rfl⟩
    · exact ⟨false, _, rfl⟩

theorem frame_head_calls_eq (K : Headers) (window : Handle) (d : demo) (F : FrameEnv)
    (h : (frame_head K window d F).aborted = false) :
    (frame_head K window d F).calls =
      [Call.glfwPollEvents] ++
        (dispatch_events K window { d with skip_curr_frame := false } F.events).calls ++
        [Call.wgpuDevicePushErrorScope (after_poll K window d F).device
            K.WGPUErrorFilter_Validation,
          Call.wgpuSwapChainGetCurrentTextureView (after_poll K window d F).swapchain
            F.next_texture,
          Call.wgpuDevicePopErrorScope (after_poll K window d F).device] ++
        (deliver_errors K (after_poll K window d F) F.errors).2 := by
  unfold frame_head after_poll at *
  simp only at h ⊢
  split_ifs at h ⊢ with hp
  rfl

theorem frame_head_calls_no_render (K : Headers) (window : Handle) (d : demo) (F : FrameEnv) :
    ∀ c ∈ (frame_head K window d F).calls, c.isRenderWork = false := by
  intro c hc
  by_cases h : (frame_head K window d F).aborted = false
  · rw [frame_head_calls_eq K window d F h] at hc
    simp only [List.mem_append, List.mem_cons, List.mem_singleton, List.not_mem_nil,
      or_false] at hc
    rcases hc with ((hc | hc) | hc | hc | hc) | hc
    · subst hc; rfl
    · exact isRenderWork_of_callback c (dispatch_events_calls K window _ _ c hc)
    · subst hc; rfl
    · subst hc; rfl
    · subst hc; rfl
    · exact isRenderWork_of_printf c (deliver_errors_calls K _ _ c hc)
  · unfold frame_head at hc h
    simp only at hc h
    split_ifs at hc h with hp
    all_goals first
      | (simp only [List.mem_append, List.mem_singleton] at hc
         rcases hc with hc | hc
         · subst hc; rfl
         · exact isRenderWork_of_callback c (dispatch_events_calls K window _ _ c hc))
      | simp at h

theorem isGPU_of_printf (c : Call) (h : c.isPrintf = true) : c.isGPU = false := by
  cases c <;> first | rfl | cases h

theorem filter_isGPU_of_printf (l : List Call) (h : ∀ c ∈ l, c.isPrintf = true) :
    l.filter Call.isGPU = [] := by
  rw [List.filter_eq_nil_iff]
  intro c hc
  simp [isGPU_of_printf c (h c hc)]

/-- C3: in an iteration whose test of `skip_curr_frame` after
`wgpuDevicePopErrorScope` reads true, no call that encodes, submits or
presents is made; after the pop (and the messages printed by the error
callback during it) the only call is one release of the texture view, made
exactly when the view is non-null; no `assert` fails, and the loop goes on
with the next `glfwWindowShouldClose` test. -/
theorem C3_skipped_frame (K : Headers) (window queue render_pipeline : Handle) (d : demo)
    (F : FrameEnv) (Fs : List FrameEnv)
    (h : (frame K window queue render_pipeline d F).skip = some true) :
    (frame_head K window d F).aborted = false ∧
    (frame K window queue render_pipeline d F).calls =
      (frame_head K window d F).calls ++
        (if F.next_texture ≠ 0 then [Call.wgpuTextureViewRelease F.next_texture] else []) ∧
    (frame_head K window d F).calls =
      [Call.glfwPollEvents] ++
        (dispatch_events K window { d with skip_curr_frame := false } F.events).calls ++
        [Call.wgpuDevicePushErrorScope (after_poll K window d F).device
            K.WGPUErrorFilter_Validation,
          Call.wgpuSwapChainGetCurrentTextureView (after_poll K window d F).swapchain
            F.next_texture,
          Call.wgpuDevicePopErrorScope (after_poll K window d F).device] ++
        (deliver_errors K (after_poll K window d F) F.errors).2 ∧
    (deliver_errors K (after_poll K window d F) F.errors).2.filter Call.isGPU = [] ∧
    (∀ c ∈ (frame K window queue render_pipeline d F).calls, c.isRenderWork = false) ∧
    (frame K window queue render_pipeline d F).aborted = false ∧
    ∃ b rest, (render_loop K window queue render_pipeline d (F :: Fs)).calls =
      [Call.glfwWindowShouldClose window false] ++
        (frame K window queue render_pipeline d F).calls ++
        Call.glfwWindowShouldClose window b :: rest := by
  have hab : (frame_head K window d F).aborted = false := by
    by_contra hc
    simp [frame, hc] at h
  have hsk : ((frame_head K window d F).demo.getD d).skip_curr_frame = true := by
    by_contra hc
    simp [frame, hab, hc] at h
  have hcalls : (frame K window queue render_pipeline d F).calls =
      (frame_head K window d F).calls ++
        (if F.next_texture ≠ 0 then [Call.wgpuTextureViewRelease F.next_texture] else []) := by
    simp [frame, hab, hsk]
  have hfa : (frame K window queue render_pipeline d F).aborted = false := by
    simp [frame, hab, hsk]
  refine ⟨hab, hcalls, frame_head_calls_eq K window d F hab,
    filter_isGPU_of_printf _ (deliver_errors_calls K F.errors _), ?_, hfa, ?_⟩
  · intro c hc
    rw [hcalls, List.mem_append] at hc
    rcases hc with hc | hc
    · exact frame_head_calls_no_render K window d F c hc
    · split_ifs at hc
      · simp at hc; subst hc; rfl
      · simp at hc
  · obtain ⟨b, rest, hr⟩ := render_loop_calls_head K window queue render_pipeline
      (frame K window queue render_pipeline d F).demo Fs
    refine ⟨b, rest, ?_⟩
    rw [render_loop]
    simp only [hfa, hr]
    simp

theorem frame_render_ok (K : Headers) (queue render_pipeline : Handle) (d : demo) (F : FrameEnv)
    (hv : F.next_texture ≠ 0) (he : F.command_encoder ≠ 0) (hp : F.render_pass_encoder ≠ 0)
    (hb : F.command_buffer ≠ 0) :
    frame_render K queue render_pipeline d F =
      (rendered_tail K queue render_pipeline d.device d.swapchain F, false) := by
  simp [frame_render, rendered_tail, render_pass_descriptor, hv, he, hp, hb]

theorem frame_render_aborted_iff (K : Headers) (queue render_pipeline : Handle) (d : demo)
    (F : FrameEnv) :
    (frame_render K queue render_pipeline d F).2 = true ↔
      (F.next_texture = 0 ∨ F.command_encoder = 0 ∨ F.render_pass_encoder = 0 ∨
        F.command_buffer = 0) := by
  unfold frame_render
  by_cases hv : F.next_texture = 0 <;> by_cases he : F.command_encoder = 0 <;>
    by_cases hp : F.render_pass_encoder = 0 <;> by_cases hb : F.command_buffer = 0 <;>
    simp [hv, he, hp, hb]

theorem frame_render_initial_segment (K : Headers) (queue render_pipeline : Handle) (d : demo)
    (F : FrameEnv) :
    (frame_render K queue render_pipeline d F).1 <+:
      rendered_tail K queue render_pipeline d.device d.swapchain F := by
  unfold frame_render rendered_tail render_pass_descriptor
  by_cases hv : F.next_texture = 0 <;> by_cases he : F.command_encoder = 0 <;>
    by_cases hp : F.render_pass_encoder = 0 <;> by_cases hb : F.command_buffer = 0 <;>
    simp [hv, he, hp, hb, List.prefix_iff_eq_take]

theorem frame_render_no_submit_of_aborted (K : Headers) (queue render_pipeline : Handle)
    (d : demo) (F : FrameEnv) (h : (frame_render K queue render_pipeline d F).2 = true) :
    (frame_render K queue render_pipeline d F).1.countP Call.isSubmit = 0 ∧
    (frame_render K queue render_pipeline d F).1.countP Call.isPresent = 0 := by
  unfold frame_render at h ⊢
  by_cases hv : F.next_texture = 0 <;> by_cases he : F.command_encoder = 0 <;>
    by_cases hp : F.render_pass_encoder = 0 <;> by_cases hb : F.command_buffer = 0 <;>
    simp_all [Call.isSubmit, Call.isPresent]

theorem handle_curr_texture_error_fields (K : Headers) (type : Nat) (message : List Char)
    (d : demo) :
    (handle_curr_texture_error K type message d).1 =
      { d with skip_curr_frame :=
          (handle_curr_texture_error K type message d).1.skip_curr_frame } := by
  unfold handle_curr_texture_error
  split_ifs <;> rfl

theorem deliver_errors_fields (K : Headers) (es : List ErrorReport) :
    ∀ d : demo, (deliver_errors K d es).1 =
      { d with skip_curr_frame := (deliver_errors K d es).1.skip_curr_frame } := by
  induction es with
  | nil => intro d; rfl
  | cons e es ih =>
    intro d
    simp only [deliver_errors]
    rw [ih]
    rw [handle_curr_texture_error_fields]

theorem frame_demo_eq (K : Headers) (window queue render_pipeline : Handle) (d : demo)
    (F : FrameEnv) (h : (frame_head K window d F).aborted = false) :
    (frame K window queue render_pipeline d F).demo =
      { after_poll K window d F with
        skip_curr_frame := (frame K window queue render_pipeline d F).demo.skip_curr_frame } := by
  have hd : (frame K window queue render_pipeline d F).demo =
      (deliver_errors K (after_poll K window d F) F.errors).1 := by
    unfold frame frame_head after_poll at *
    simp only at h ⊢
    split_ifs at h ⊢ <;> rfl
  rw [hd]
  exact deliver_errors_fields K F.errors _

theorem frame_skip_false (K : Headers) (window queue render_pipeline : Handle) (d : demo)
    (F : FrameEnv) (h : (frame K window queue render_pipeline d F).skip = some false) :
    (frame_head K window d F).aborted = false ∧
    (frame K window queue render_pipeline d F).calls =
      (frame_head K window d F).calls ++
        (frame_render K queue render_pipeline
          (frame K window queue render_pipeline d F).demo F).1 ∧
    (frame K window queue render_pipeline d F).aborted =
      (frame_render K queue render_pipeline
          (frame K window queue render_pipeline d F).demo F).2 := by
  have hab : (frame_head K window d F).aborted = false := by
    by_contra hc
    simp [frame, hc] at h
  have hsk : ((frame_head K window d F).demo.getD d).skip_curr_frame = false := by
    by_contra hc
    simp [frame, hab, hc] at h
  simp [frame, hab, hsk]

theorem countP_eq_zero_of_no_render (l : List Call) (h : ∀ c ∈ l, c.isRenderWork = false)
    (p : Call → Bool) (hp : ∀ c, p c = true → c.isRenderWork = true) : l.countP p = 0 := by
  rw [List.countP_eq_zero]
  intro c hc hpc
  have := h c hc
  rw [hp c hpc] at this
  exact Bool.noConfusion this

theorem isDraw_isRenderWork (c : Call) (h : c.isDraw = true) : c.isRenderWork = true := by
  cases c <;> first | rfl | cases h

theorem isSubmit_isRenderWork (c : Call) (h : c.isSubmit = true) : c.isRenderWork = true := by
  cases c <;> first | rfl | cases h

theorem isPresent_isRenderWork (c : Call) (h : c.isPresent = true) : c.isRenderWork = true := by
  cases c <;> first | rfl | cases h

/-- C2 (amended): in an iteration whose test of `skip_curr_frame` after the
pop reads false, and in which the texture view, the command encoder, the
render pass encoder and the command buffer handed out are all non-null, the
calls after the pop are exactly: create the command encoder, begin the render
pass on this frame's view (clear to (0, 1, 0, 1), store), set the pipeline,
draw 3 vertices / 1 instance from 0 / 0, end the pass, finish the encoder,
submit that one command buffer, present; then the four releases.  There is
one draw, one submit and one present in the iteration.  When one of the four
handles is null, an `assert` aborts the process and nothing is submitted or
presented. -/
theorem C2_rendered_frame (K : Headers) (window queue render_pipeline : Handle) (d : demo)
    (F : FrameEnv) (h : (frame K window queue render_pipeline d F).skip = some false) :
    (frame_head K window d F).calls =
      [Call.glfwPollEvents] ++
        (dispatch_events K window { d with skip_curr_frame := false } F.events).calls ++
        [Call.wgpuDevicePushErrorScope (after_poll K window d F).device
            K.WGPUErrorFilter_Validation,
          Call.wgpuSwapChainGetCurrentTextureView (after_poll K window d F).swapchain
            F.next_texture,
          Call.wgpuDevicePopErrorScope (after_poll K window d F).device] ++
        (deliver_errors K (after_poll K window d F) F.errors).2 ∧
    (F.next_texture ≠ 0 → F.command_encoder ≠ 0 → F.render_pass_encoder ≠ 0 →
      F.command_buffer ≠ 0 →
      (frame K window queue render_pipeline d F).calls =
        (frame_head K window d F).calls ++
          [Call.wgpuDeviceCreateCommandEncoder (after_poll K window d F).device
              "command_encoder" F.command_encoder,
            Call.wgpuCommandEncoderBeginRenderPass F.command_encoder
              { label := "render_pass_encoder", colorAttachmentCount := 1,
                colorAttachments :=
                  [{ view := F.next_texture, loadOp := K.WGPULoadOp_Clear,
                     storeOp := K.WGPUStoreOp_Store,
                     clearValue := { r := 0, g := 1, b := 0, a := 1 } }] }
              F.render_pass_encoder,
            Call.wgpuRenderPassEncoderSetPipeline F.render_pass_encoder render_pipeline,
            Call.wgpuRenderPassEncoderDraw F.render_pass_encoder 3 1 0 0,
            Call.wgpuRenderPassEncoderEnd F.render_pass_encoder,
            Call.wgpuCommandEncoderFinish F.command_encoder "command_buffer" F.command_buffer,
            Call.wgpuQueueSubmit queue 1 [F.command_buffer],
            Call.wgpuSwapChainPresent (after_poll K window d F).swapchain] ++
          [Call.wgpuCommandBufferRelease F.command_buffer,
            Call.wgpuRenderPassEncoderRelease F.render_pass_encoder,
            Call.wgpuCommandEncoderRelease F.command_encoder,
            Call.wgpuTextureViewRelease F.next_texture] ∧
      (frame K window queue render_pipeline d F).aborted = false ∧
      (frame K window queue render_pipeline d F).calls.countP Call.isDraw = 1 ∧
      (frame K window queue render_pipeline d F).calls.countP Call.isSubmit = 1 ∧
      (frame K window queue render_pipeline d F).calls.countP Call.isPresent = 1) ∧
    ((F.next_texture = 0 ∨ F.command_encoder = 0 ∨ F.render_pass_encoder = 0 ∨
        F.command_buffer = 0) →
      (frame K window queue render_pipeline d F).aborted = true ∧
      (frame K window queue render_pipeline d F).calls.countP Call.isSubmit = 0 ∧
      (frame K window queue render_pipeline d F).calls.countP Call.isPresent = 0) := by
  obtain ⟨hab, hcalls, habort⟩ := frame_skip_false K window queue render_pipeline d F h
  have hdemo := frame_demo_eq K window queue render_pipeline d F hab
  have hhead := frame_head_calls_no_render K window d F
  refine ⟨frame_head_calls_eq K window d F hab, ?_, ?_⟩
  · intro hv he hp hb
    have hr := frame_render_ok K queue render_pipeline
      (frame K window queue render_pipeline d F).demo F hv he hp hb
    have hdev : (frame K window queue render_pipeline d F).demo.device =
        (after_poll K window d F).device := by rw [hdemo]
    have hsc : (frame K window queue render_pipeline d F).demo.swapchain =
        (after_poll K window d F).swapchain := by rw [hdemo]
    rw [hr, hdev, hsc] at hcalls habort
    have hc2 : (frame K window queue render_pipeline d F).calls =
        (frame_head K window d F).calls ++
          rendered_tail K queue render_pipeline (after_poll K window d F).device
            (after_poll K window d F).swapchain F := hcalls
    refine ⟨?_, habort, ?_, ?_, ?_⟩
    · rw [hc2]; simp [rendered_tail]
    · rw [hc2, List.countP_append,
        countP_eq_zero_of_no_render _ hhead _ isDraw_isRenderWork]
      simp [rendered_tail, Call.isDraw]
    · rw [hc2, List.countP_append,
        countP_eq_zero_of_no_render _ hhead _ isSubmit_isRenderWork]
      simp [rendered_tail, Call.isSubmit]
    · rw [hc2, List.countP_append,
        countP_eq_zero_of_no_render _ hhead _ isPresent_isRenderWork]
      simp [rendered_tail, Call.isPresent]
  · intro hnull
    have hra := (frame_render_aborted_iff K queue render_pipeline
      (frame K window queue render_pipeline d F).demo F).mpr hnull
    obtain ⟨hs, hp⟩ := frame_render_no_submit_of_aborted K queue render_pipeline
      (frame K window queue render_pipeline d F).demo F hra
    refine ⟨by rw [habort, hra], ?_, ?_⟩
    · rw [hcalls, List.countP_append,
        countP_eq_zero_of_no_render _ hhead _ isSubmit_isRenderWork, hs]
    · rw [hcalls, List.countP_append,
        countP_eq_zero_of_no_render _ hhead _ isPresent_isRenderWork, hp]

/-- C2 as stated fails when the texture view is null and the error reported
is not one of the three surface errors: the flag reads false after the pop,
yet the `assert` on the view aborts and no GPU call follows the pop. -/
theorem C2_counterexample :
    (frame stdHeaders 10 11 12 sample_demo
        ⟨[], 0, [⟨1, "Out of memory".toList⟩], 0, 0, 0⟩).skip = some false ∧
    (frame stdHeaders 10 11 12 sample_demo
        ⟨[], 0, [⟨1, "Out of memory".toList⟩], 0, 0, 0⟩).calls =
      [Call.glfwPollEvents, Call.wgpuDevicePushErrorScope 4 0,
        Call.wgpuSwapChainGetCurrentTextureView 5 0, Call.wgpuDevicePopErrorScope 4,
        Call.printf "[triangle] curr_texture_error type=%#.8x message=%s\n"
          [PrintfArg.uint 1, PrintfArg.str "Out of memory".toList]] ∧
    (frame stdHeaders 10 11 12 sample_demo
        ⟨[], 0, [⟨1, "Out of memory".toList⟩], 0, 0, 0⟩).aborted = true :=
  ⟨rfl, rfl, rfl⟩

/-- C2 at a frame with view 6, encoder 7, pass 8 and command buffer 9. -/
theorem C2_rendered_frame_witness :
    (frame stdHeaders 10 11 12 sample_demo ⟨[], 6, [], 7, 8, 9⟩).calls =
      [Call.glfwPollEvents, Call.wgpuDevicePushErrorScope 4 0,
        Call.wgpuSwapChainGetCurrentTextureView 5 6, Call.wgpuDevicePopErrorScope 4,
        Call.wgpuDeviceCreateCommandEncoder 4 "command_encoder" 7,
        Call.wgpuCommandEncoderBeginRenderPass 7
          ⟨"render_pass_encoder", 1, [⟨6, 1, 1, ⟨0, 1, 0, 1⟩⟩]⟩ 8,
        Call.wgpuRenderPassEncoderSetPipeline 8 12,
        Call.wgpuRenderPassEncoderDraw 8 3 1 0 0,
        Call.wgpuRenderPassEncoderEnd 8,
        Call.wgpuCommandEncoderFinish 7 "command_buffer" 9,
        Call.wgpuQueueSubmit 11 1 [9],
        Call.wgpuSwapChainPresent 5,
        Call.wgpuCommandBufferRelease 9,
        Call.wgpuRenderPassEncoderRelease 8,
        Call.wgpuCommandEncoderRelease 7,
        Call.wgpuTextureViewRelease 6] ∧
    (frame stdHeaders 10 11 12 sample_demo ⟨[], 6, [], 7, 8, 9⟩).calls.countP Call.isDraw = 1 :=
  have h := (C2_rendered_frame stdHeaders 10 11 12 sample_demo ⟨[], 6, [], 7, 8, 9⟩ rfl).2.1
    (by decide) (by decide) (by decide) (by decide)
  ⟨h.1, h.2.2.1⟩

theorem callback_release_is_swapchain (c : Call) (h : c.isCallbackCall = true)
    (hr : c.releasesInitObject = true) : c.isSwapChainRelease = true := by
  cases c <;> first | rfl | (cases h; done) | cases hr

theorem filter_releasesInitObject_printf (l : List Call) (h : ∀ c ∈ l, c.isPrintf = true) :
    l.filter Call.releasesInitObject = [] := by
  rw [List.filter_eq_nil_iff]
  intro c hc
  have hp := h c hc
  clear hc h
  cases c <;> first | (cases hp; done) | simp [Call.releasesInitObject]

theorem frame_render_no_init_release (K : Headers) (queue render_pipeline : Handle) (d : demo)
    (F : FrameEnv) :
    (frame_render K queue render_pipeline d F).1.filter Call.releasesInitObject = [] := by
  unfold frame_render
  by_cases hv : F.next_texture = 0 <;> by_cases he : F.command_encoder = 0 <;>
    by_cases hp : F.render_pass_encoder = 0 <;> by_cases hb : F.command_buffer = 0 <;>
    simp [hv, he, hp, hb, Call.releasesInitObject]

theorem frame_calls_init_release (K : Headers) (window queue render_pipeline : Handle)
    (d : demo) (F : FrameEnv) :
    (frame K window queue render_pipeline d F).calls.filter Call.releasesInitObject =
      (dispatch_events K window { d with skip_curr_frame := false } F.events).calls.filter
        Call.releasesInitObject := by
  have hr := frame_render_no_init_release K queue render_pipeline
  have he := filter_releasesInitObject_printf _
    (deliver_errors_calls K F.errors
      ((dispatch_events K window { d with skip_curr_frame := false } F.events).demo.getD
        { d with skip_curr_frame := false }))
  unfold frame frame_head
  simp only
  split_ifs <;>
    simp [List.filter_append, he, hr, Call.releasesInitObject, List.filter_cons]

theorem handle_glfw_key_no_init_release (K : Headers) (window : Handle) (p : Option demo)
    (key scancode action mods : Int) :
    (handle_glfw_key K window p key scancode action mods).calls.filter
      Call.releasesInitObject = [] := by
  unfold handle_glfw_key
  split_ifs
  · cases p with
    | none => simp [Call.releasesInitObject]
    | some d =>
      by_cases hi : d.«instance» = 0 <;> simp [hi, Call.releasesInitObject]
  · simp

theorem dispatch_events_no_resize (K : Headers) (window : Handle) (evs : List Event)
    (h : ∀ ev ∈ evs, ev.isResize = false) :
    ∀ d : demo, (dispatch_events K window d evs).calls.filter Call.releasesInitObject = [] := by
  induction evs with
  | nil => intro d; simp [dispatch_events]
  | cons ev evs ih =>
    intro d
    have hev := h ev (List.mem_cons_self _ _)
    have ih2 := ih (fun e he => h e (List.mem_cons_of_mem _ he))
    cases ev with
    | framebuffer_size width height created => simp [Event.isResize] at hev
    | key key scancode action mods =>
      unfold dispatch_events
      simp only
      split_ifs
      · exact handle_glfw_key_no_init_release K window _ key scancode action mods
      · simp only [List.filter_append]
        rw [handle_glfw_key_no_init_release, ih2]
        rfl

/-- C10 (amended): in an iteration that runs to its end, the statements of
the loop body release each object they acquired exactly once: on a rendered
frame the command buffer, the render pass encoder, the command encoder and
the texture view, in that order, after the submit and the present; on a
skipped frame only the texture view, when it is non-null.  The statements of
the loop body release no object created during initialization: the only such
releases during an iteration are swapchain releases made by the resize
callback while `glfwPollEvents` runs, and there is none when no resize event
is delivered. -/
theorem C10_frame_resources (K : Headers) (window queue render_pipeline : Handle) (d : demo)
    (F : FrameEnv) :
    ((frame K window queue render_pipeline d F).skip = some false →
      (frame K window queue render_pipeline d F).aborted = false →
      (frame K window queue render_pipeline d F).calls =
        (frame_head K window d F).calls ++
          [Call.wgpuDeviceCreateCommandEncoder (after_poll K window d F).device
              "command_encoder" F.command_encoder,
            Call.wgpuCommandEncoderBeginRenderPass F.command_encoder
              (render_pass_descriptor K F.next_texture) F.render_pass_encoder,
            Call.wgpuRenderPassEncoderSetPipeline F.render_pass_encoder render_pipeline,
            Call.wgpuRenderPassEncoderDraw F.render_pass_encoder 3 1 0 0,
            Call.wgpuRenderPassEncoderEnd F.render_pass_encoder,
            Call.wgpuCommandEncoderFinish F.command_encoder "command_buffer" F.command_buffer,
            Call.wgpuQueueSubmit queue 1 [F.command_buffer],
            Call.wgpuSwapChainPresent (after_poll K window d F).swapchain] ++
          [Call.wgpuCommandBufferRelease F.command_buffer,
            Call.wgpuRenderPassEncoderRelease F.render_pass_encoder,
            Call.wgpuCommandEncoderRelease F.command_encoder,
            Call.wgpuTextureViewRelease F.next_texture]) ∧
    ((frame K window queue render_pipeline d F).skip = some true →
      (frame K window queue render_pipeline d F).aborted = false ∧
      (frame K window queue render_pipeline d F).calls =
        (frame_head K window d F).calls ++
          (if F.next_texture ≠ 0 then [Call.wgpuTextureViewRelease F.next_texture] else [])) ∧
    ((frame_head K window d F).aborted = false →
      (frame_head K window d F).calls =
        [Call.glfwPollEvents] ++
          (dispatch_events K window { d with skip_curr_frame := false } F.events).calls ++
          [Call.wgpuDevicePushErrorScope (after_poll K window d F).device
              K.WGPUErrorFilter_Validation,
            Call.wgpuSwapChainGetCurrentTextureView (after_poll K window d F).swapchain
              F.next_texture,
            Call.wgpuDevicePopErrorScope (after_poll K window d F).device] ++
          (deliver_errors K (after_poll K window d F) F.errors).2 ∧
      ∀ c ∈ (deliver_errors K (after_poll K window d F) F.errors).2, c.isPrintf = true) ∧
    (frame K window queue render_pipeline d F).calls.filter Call.releasesInitObject =
      (dispatch_events K window { d with skip_curr_frame := false } F.events).calls.filter
        Call.releasesInitObject ∧
    (∀ c ∈ (dispatch_events K window { d with skip_curr_frame := false } F.events).calls.filter
        Call.releasesInitObject, c.isSwapChainRelease = true) ∧
    ((∀ ev ∈ F.events, ev.isResize = false) →
      (frame K window queue render_pipeline d F).calls.filter Call.releasesInitObject = []) := by
  refine ⟨?_, ?_, ?_, frame_calls_init_release K window queue render_pipeline d F, ?_, ?_⟩
  · intro h ha
    obtain ⟨hab, hcalls, habort⟩ := frame_skip_false K window queue render_pipeline d F h
    have hdemo := frame_demo_eq K window queue render_pipeline d F hab
    rw [ha] at habort
    have hnn : ¬ (F.next_texture = 0 ∨ F.command_encoder = 0 ∨ F.render_pass_encoder = 0 ∨
        F.command_buffer = 0) := by
      intro hc
      have := (frame_render_aborted_iff K queue render_pipeline
        (frame K window queue render_pipeline d F).demo F).mpr hc
      rw [← habort] at this
      exact Bool.noConfusion this
    simp only [not_or] at hnn
    obtain ⟨hv, he, hp, hb⟩ := hnn
    have hr := frame_render_ok K queue render_pipeline
      (frame K window queue render_pipeline d F).demo F hv he hp hb
    have hdev : (frame K window queue render_pipeline d F).demo.device =
        (after_poll K window d F).device := by rw [hdemo]
    have hsc : (frame K window queue render_pipeline d F).demo.swapchain =
        (after_poll K window d F).swapchain := by rw [hdemo]
    rw [hr, hdev, hsc] at hcalls
    have hc2 : (frame K window queue render_pipeline d F).calls =
        (frame_head K window d F).calls ++
          rendered_tail K queue render_pipeline (after_poll K window d F).device
            (after_poll K window d F).swapchain F := hcalls
    rw [hc2]
    simp [rendered_tail, render_pass_descriptor]
  · intro h
    have hab : (frame_head K window d F).aborted = false := by
      by_contra hc
      simp [frame, hc] at h
    have hsk : ((frame_head K window d F).demo.getD d).skip_curr_frame = true := by
      by_contra hc
      simp [frame, hab, hc] at h
    simp [frame, hab, hsk]
  · intro hab
    exact ⟨frame_head_calls_eq K window d F hab, deliver_errors_calls K F.errors _⟩
  · intro c hc
    rw [List.mem_filter] at hc
    exact callback_release_is_swapchain c (dispatch_events_calls K window _ _ c hc.1) hc.2
  · intro hne
    rw [frame_calls_init_release]
    exact dispatch_events_no_resize K window F.events hne _

/-- C10 as stated fails in two ways.  When `glfwPollEvents` delivers a resize,
the swapchain created during initialization (5) is released during the
iteration and the swapchain created in it (15) is not released in it.  When
the command encoder comes back null, the `assert` aborts and the texture
view acquired in the iteration (6) is never released. -/
theorem C10_counterexample :
    ((frame stdHeaders 10 11 12 sample_demo
        ⟨[Event.framebuffer_size 800 600 15], 6, [], 7, 8, 9⟩).calls =
      [Call.glfwPollEvents, Call.glfwGetWindowUserPointer 10,
        Call.wgpuSwapChainRelease 5,
        Call.wgpuDeviceCreateSwapChain 4 2 ⟨16, 23, 800, 600, 2⟩ 15,
        Call.wgpuDevicePushErrorScope 4 0,
        Call.wgpuSwapChainGetCurrentTextureView 15 6, Call.wgpuDevicePopErrorScope 4,
        Call.wgpuDeviceCreateCommandEncoder 4 "command_encoder" 7,
        Call.wgpuCommandEncoderBeginRenderPass 7
          ⟨"render_pass_encoder", 1, [⟨6, 1, 1, ⟨0, 1, 0, 1⟩⟩]⟩ 8,
        Call.wgpuRenderPassEncoderSetPipeline 8 12,
        Call.wgpuRenderPassEncoderDraw 8 3 1 0 0,
        Call.wgpuRenderPassEncoderEnd 8,
        Call.wgpuCommandEncoderFinish 7 "command_buffer" 9,
        Call.wgpuQueueSubmit 11 1 [9],
        Call.wgpuSwapChainPresent 15,
        Call.wgpuCommandBufferRelease 9,
        Call.wgpuRenderPassEncoderRelease 8,
        Call.wgpuCommandEncoderRelease 7,
        Call.wgpuTextureViewRelease 6] ∧
      (frame stdHeaders 10 11 12 sample_demo
        ⟨[Event.framebuffer_size 800 600 15], 6, [], 7, 8, 9⟩).aborted = false) ∧
    ((frame stdHeaders 10 11 12 sample_demo ⟨[], 6, [], 0, 0, 0⟩).calls =
      [Call.glfwPollEvents, Call.wgpuDevicePushErrorScope 4 0,
        Call.wgpuSwapChainGetCurrentTextureView 5 6, Call.wgpuDevicePopErrorScope 4,
        Call.wgpuDeviceCreateCommandEncoder 4 "command_encoder" 0] ∧
      (frame stdHeaders 10 11 12 sample_demo ⟨[], 6, [], 0, 0, 0⟩).aborted = true) :=
  ⟨⟨rfl, rfl⟩, ⟨rfl, rfl⟩⟩

/-- C10 at a skipped frame with view 6 and at a frame without resize events. -/
theorem C10_frame_resources_witness :
    (frame stdHeaders 10 11 12 sample_demo
        ⟨[], 6, [⟨1, "Surface was lost".toList⟩], 0, 0, 0⟩).calls =
      [Call.glfwPollEvents, Call.wgpuDevicePushErrorScope 4 0,
        Call.wgpuSwapChainGetCurrentTextureView 5 6, Call.wgpuDevicePopErrorScope 4,
        Call.printf "[triangle] curr_texture_error type=%#.8x message=%s\n"
          [PrintfArg.uint 1, PrintfArg.str "Surface was lost".toList],
        Call.wgpuTextureViewRelease 6] ∧
    (frame stdHeaders 10 11 12 sample_demo ⟨[], 6, [], 7, 8, 9⟩).calls.filter
      Call.releasesInitObject = [] :=
  ⟨((C10_frame_resources stdHeaders 10 11 12 sample_demo
      ⟨[], 6, [⟨1, "Surface was lost".toList⟩], 0, 0, 0⟩).2.1 rfl).2,
    (C10_frame_resources stdHeaders 10 11 12 sample_demo ⟨[], 6, [], 7, 8, 9⟩).2.2.2.2.2
      (by simp)⟩

/-! ## Initialization as a list of checked steps -/

theorem main_eq_run_steps (K : Headers) (T : Target) (E : Env) :
    main K T E =
      run_steps (main_swapchain K E) (init_sequence K T E) (initial_locals K) [] := by
  simp only [init_sequence, run_steps, main_swapchain, main_loop, initial_locals]
  unfold main
  simp only [decide_eq_true_eq, ne_eq, ite_not, List.nil_append, List.append_assoc]

theorem run_steps_inv (Inv : Locals → List Call → Prop) (Q : Run → Prop)
    (k : Locals → List Call → Run) (steps : List InitStep)
    (hstep : ∀ s ∈ steps, ∀ l c, Inv l c → Inv (s.perform l c).1 (s.perform l c).2)
    (hfail : ∀ expr line l c, Inv l c → Q (ASSERT_CHECK expr line l c))
    (hk : ∀ l c, Inv l c → Q (k l c)) :
    ∀ l c, Inv l c → Q (run_steps k steps l c) := by
  induction steps with
  | nil => intro l c h; exact hk l c h
  | cons s ss ih =>
    intro l c h
    unfold run_steps
    have h1 := hstep s (List.mem_cons_self _ _) l c h
    split_ifs
    · exact ih (fun s' hs' => hstep s' (List.mem_cons_of_mem _ hs')) _ _ h1
    · exact hfail _ _ _ _ h1

theorem handle_request_adapter_spec (K : Headers) (status : Nat) (adapter : Handle)
    (message : List Char) (d : demo) :
    (handle_request_adapter K status adapter message d).1 =
      { d with adapter := (handle_request_adapter K status adapter message d).1.adapter } ∧
    ∀ x ∈ (handle_request_adapter K status adapter message d).2, x.isPrintf = true := by
  unfold handle_request_adapter
  split_ifs <;> simp [Call.isPrintf]

theorem handle_request_device_spec (K : Headers) (status : Nat) (device : Handle)
    (message : List Char) (d : demo) :
    (handle_request_device K status device message d).1 =
      { d with device := (handle_request_device K status device message d).1.device } ∧
    ∀ x ∈ (handle_request_device K status device message d).2, x.isPrintf = true := by
  unfold handle_request_device
  split_ifs <;> simp [Call.isPrintf]

theorem deliver_adapter_spec (K : Headers) (rs : List RequestResult) :
    ∀ d : demo,
      (deliver_adapter K d rs).1 = { d with adapter := (deliver_adapter K d rs).1.adapter } ∧
      ∀ x ∈ (deliver_adapter K d rs).2, x.isPrintf = true := by
  induction rs with
  | nil => intro d; simp [deliver_adapter]
  | cons r rs ih =>
    intro d
    obtain ⟨h1, h2⟩ := handle_request_adapter_spec K r.status r.handle r.message d
    obtain ⟨h3, h4⟩ := ih (handle_request_adapter K r.status r.handle r.message d).1
    simp only [deliver_adapter]
    constructor
    · rw [h3, h1]
    · intro x hx
      rw [List.mem_append] at hx
      rcases hx with hx | hx
      · exact h2 x hx
      · exact h4 x hx

theorem deliver_device_spec (K : Headers) (rs : List RequestResult) :
    ∀ d : demo,
      (deliver_device K d rs).1 = { d with device := (deliver_device K d rs).1.device } ∧
      ∀ x ∈ (deliver_device K d rs).2, x.isPrintf = true := by
  induction rs with
  | nil => intro d; simp [deliver_device]
  | cons r rs ih =>
    intro d
    obtain ⟨h1, h2⟩ := handle_request_device_spec K r.status r.handle r.message d
    obtain ⟨h3, h4⟩ := ih (handle_request_device K r.status r.handle r.message d).1
    simp only [deliver_device]
    constructor
    · rw [h3, h1]
    · intro x hx
      rw [List.mem_append] at hx
      rcases hx with hx | hx
      · exact h2 x hx
      · exact h4 x hx

theorem isInitCall_of_printf (x : Call) (h : x.isPrintf = true) : x.isInitCall = true := by
  cases x <;> first | rfl | cases h

theorem create_surface_calls (K : Headers) (T : Target) (E : Env) (inst window : Handle) :
    ∀ x ∈ create_surface K T E inst window, x.isInitCall = true := by
  cases T <;> simp [create_surface, Call.isInitCall]

theorem init_sequence_invariant (K : Headers) (T : Target) (E : Env) :
    ∀ s ∈ init_sequence K T E, ∀ l c, init_invariant K l c →
      init_invariant K (s.perform l c).1 (s.perform l c).2 := by
  intro s hs l c ⟨h1, h2, h3⟩
  have ha := deliver_adapter_spec K E.adapter_results l.demo
  have hd := deliver_device_spec K E.device_results l.demo
  have hA : (deliver_adapter K l.demo E.adapter_results).2.all Call.isInitCall = true :=
    List.all_eq_true.mpr (fun x hx => isInitCall_of_printf x (ha.2 x hx))
  have hD : (deliver_device K l.demo E.device_results).2.all Call.isInitCall = true :=
    List.all_eq_true.mpr (fun x hx => isInitCall_of_printf x (hd.2 x hx))
  have hS : (create_surface K T E l.demo.«instance» l.window).all Call.isInitCall = true :=
    List.all_eq_true.mpr (create_surface_calls K T E l.demo.«instance» l.window)
  have hC : c.all Call.isInitCall = true := List.all_eq_true.mpr h3
  simp only [init_sequence, List.mem_cons, List.mem_singleton, List.not_mem_nil, or_false] at hs
  rcases hs with hs | hs | hs | hs | hs | hs | hs | hs | hs | hs | hs <;> subst hs <;>
    refine ⟨?_, ?_, List.all_eq_true.mp ?_⟩ <;> simp only [] <;> try assumption
  all_goals first
    | (rw [ha.1]; exact h2)
    | (rw [hd.1]; exact h2)
    | (simp only [List.all_append, List.all_cons, List.all_nil, hC, hA, hD, hS,
        Call.isInitCall, Bool.and_self, Bool.true_and, Bool.and_true]
       try (split_ifs <;> rfl))

/-! ## Swapchains created and released -/

theorem filterMap_eq_nil_of_forall {α β : Type} (f : α → Option β) (l : List α)
    (h : ∀ x ∈ l, f x = none) : l.filterMap f = [] := by
  induction l with
  | nil => rfl
  | cons a l ih =>
    rw [List.filterMap_cons, h a (List.mem_cons_self _ _)]
    exact ih (fun x hx => h x (List.mem_cons_of_mem _ hx))

theorem handle_glfw_key_swapchain (K : Headers) (window : Handle) (d : demo)
    (key scancode action mods : Int) :
    (handle_glfw_key K window (some d) key scancode action mods).demo = some d ∧
    (handle_glfw_key K window (some d) key scancode action mods).aborted = false ∧
    swapchains_released (handle_glfw_key K window (some d) key scancode action mods).calls = [] ∧
    swapchains_created (handle_glfw_key K window (some d) key scancode action mods).calls = [] := by
  unfold handle_glfw_key
  by_cases h1 : key = K.GLFW_KEY_R ∧ (action = K.GLFW_PRESS ∨ action = K.GLFW_REPEAT) <;>
    by_cases h2 : d.«instance» = 0 <;>
    simp [h1, h2, swapchains_released, swapchains_created, Call.swapchainReleased,
      Call.swapchainCreated]

theorem handle_glfw_framebuffer_size_swapchain (window : Handle) (d : demo)
    (width height : Int) (created : Handle) (hs : d.swapchain ≠ 0)
    (ha : (handle_glfw_framebuffer_size window (some d) width height created).aborted = false) :
    ∃ d1, (handle_glfw_framebuffer_size window (some d) width height created).demo = some d1 ∧
      d1.swapchain ≠ 0 ∧
      swapchains_released
          (handle_glfw_framebuffer_size window (some d) width height created).calls ++
        [d1.swapchain] =
      d.swapchain ::
        swapchains_created
          (handle_glfw_framebuffer_size window (some d) width height created).calls := by
  unfold handle_glfw_framebuffer_size at ha ⊢
  by_cases hz : width = 0 ∧ height = 0
  · simp [hz, hs, swapchains_released, swapchains_created]
  · simp only [hz, hs, if_false] at ha ⊢
    simp only [decide_eq_false_iff_not] at ha
    simp [ha, hs, swapchains_released, swapchains_created, Call.swapchainReleased,
      Call.swapchainCreated]

theorem dispatch_events_swapchain (K : Headers) (window : Handle) (evs : List Event) :
    ∀ d : demo, d.swapchain ≠ 0 → (dispatch_events K window d evs).aborted = false →
      ∃ d1, (dispatch_events K window d evs).demo = some d1 ∧ d1.swapchain ≠ 0 ∧
        swapchains_released (dispatch_events K window d evs).calls ++ [d1.swapchain] =
          d.swapchain :: swapchains_created (dispatch_events K window d evs).calls := by
  induction evs with
  | nil =>
    intro d hs _
    exact ⟨d, rfl, hs, rfl⟩
  | cons ev evs ih =>
    intro d hs ha
    cases ev with
    | key key scancode action mods =>
      obtain ⟨k1, k2, k3, k4⟩ := handle_glfw_key_swapchain K window d key scancode action mods
      unfold dispatch_events at ha ⊢
      simp only [k2, Bool.false_eq_true, if_false, k1, Option.getD_some] at ha ⊢
      obtain ⟨d1, e1, e2, e3⟩ := ih d hs ha
      refine ⟨d1, e1, e2, ?_⟩
      unfold swapchains_released swapchains_created at *
      rw [List.filterMap_append, List.filterMap_append, k3, k4]
      simpa using e3
    | framebuffer_size width height created =>
      unfold dispatch_events at ha ⊢
      simp only at ha ⊢
      by_cases hab : (handle_glfw_framebuffer_size window (some d) width height created).aborted
          = true
      · simp [hab] at ha
      · have hab2 : (handle_glfw_framebuffer_size window (some d) width height created).aborted
            = false := by simpa using hab
        obtain ⟨d0, f1, f2, f3⟩ := handle_glfw_framebuffer_size_swapchain window d width height
          created hs hab2
        simp only [hab2, Bool.false_eq_true, if_false, f1, Option.getD_some] at ha ⊢
        obtain ⟨d1, e1, e2, e3⟩ := ih d0 f2 ha
        refine ⟨d1, e1, e2, ?_⟩
        unfold swapchains_released swapchains_created at *
        rw [List.filterMap_append, List.filterMap_append, List.append_assoc, e3,
          ← List.cons_append, ← f3]
        simp

theorem frame_render_body_calls (K : Headers) (queue render_pipeline : Handle) (d : demo)
    (F : FrameEnv) :
    ∀ x ∈ (frame_render K queue render_pipeline d F).1, x.isBodyCall = true := by
  have hp := frame_render_initial_segment K queue render_pipeline d F
  intro x hx
  have hx2 := hp.subset hx
  simp only [rendered_tail, List.mem_cons, List.mem_singleton, List.not_mem_nil, or_false]
    at hx2
  rcases hx2 with h | h | h | h | h | h | h | h | h | h | h | h <;> subst h <;> rfl

theorem frame_calls_filterMap {β : Type} (f : Call → Option β)
    (h1 : ∀ x : Call, x.isBodyCall = true → f x = none)
    (h2 : ∀ x : Call, x.isPrintf = true → f x = none)
    (K : Headers) (window queue render_pipeline : Handle) (d : demo) (F : FrameEnv) :
    (frame K window queue render_pipeline d F).calls.filterMap f =
      (dispatch_events K window { d with skip_curr_frame := false } F.events).calls.filterMap
        f := by
  have hr : ∀ d1, (frame_render K queue render_pipeline d1 F).1.filterMap f = [] := fun d1 =>
    filterMap_eq_nil_of_forall f _
      (fun x hx => h1 x (frame_render_body_calls K queue render_pipeline d1 F x hx))
  have he : ∀ d1, (deliver_errors K d1 F.errors).2.filterMap f = [] := fun d1 =>
    filterMap_eq_nil_of_forall f _ (fun x hx => h2 x (deliver_errors_calls K F.errors d1 x hx))
  have p1 : f Call.glfwPollEvents = none := h1 _ rfl
  have p2 : ∀ a b, f (Call.wgpuDevicePushErrorScope a b) = none := fun a b => h1 _ rfl
  have p3 : ∀ a b, f (Call.wgpuSwapChainGetCurrentTextureView a b) = none := fun a b => h1 _ rfl
  have p4 : ∀ a, f (Call.wgpuDevicePopErrorScope a) = none := fun a => h1 _ rfl
  have p5 : ∀ a, f (Call.wgpuTextureViewRelease a) = none := fun a => h1 _ rfl
  unfold frame frame_head
  simp only
  split_ifs <;>
    simp [List.filterMap_append, List.filterMap_cons, he, hr, p1, p2, p3, p4, p5]

theorem frame_swapchains_released (K : Headers) (window queue render_pipeline : Handle)
    (d : demo) (F : FrameEnv) :
    swapchains_released (frame K window queue render_pipeline d F).calls =
      swapchains_released
        (dispatch_events K window { d with skip_curr_frame := false } F.events).calls := by
  unfold swapchains_released
  apply frame_calls_filterMap
  · intro x hx; cases x <;> first | rfl | cases hx
  · intro x hx; cases x <;> first | rfl | cases hx

theorem frame_swapchains_created (K : Headers) (window queue render_pipeline : Handle)
    (d : demo) (F : FrameEnv) :
    swapchains_created (frame K window queue render_pipeline d F).calls =
      swapchains_created
        (dispatch_events K window { d with skip_curr_frame := false } F.events).calls := by
  unfold swapchains_created
  apply frame_calls_filterMap
  · intro x hx; cases x <;> first | rfl | cases hx
  · intro x hx; cases x <;> first | rfl | cases hx

theorem frame_no_terminate (K : Headers) (window queue render_pipeline : Handle)
    (d : demo) (F : FrameEnv) :
    (frame K window queue render_pipeline d F).calls.countP Call.isTerminate = 0 := by
  rw [List.countP_eq_length_filter, ← List.filterMap_eq_filter,
    frame_calls_filterMap (Option.guard fun x => Call.isTerminate x = true)]
  · rw [List.filterMap_eq_filter, ← List.countP_eq_length_filter, List.countP_eq_zero]
    intro x hx hc
    have hcb := dispatch_events_calls K window _ _ x hx
    clear hx
    cases x <;> first | (cases hcb; done) | cases hc
  · intro x hx; cases x <;> first | rfl | cases hx
  · intro x hx; cases x <;> first | rfl | cases hx

theorem frame_head_not_aborted (K : Headers) (window queue render_pipeline : Handle)
    (d : demo) (F : FrameEnv) (h : (frame K window queue render_pipeline d F).aborted = false) :
    (frame_head K window d F).aborted = false := by
  by_contra hc
  simp [frame, hc] at h

theorem frame_head_aborted_eq (K : Headers) (window : Handle) (d : demo) (F : FrameEnv) :
    (frame_head K window d F).aborted =
      (dispatch_events K window { d with skip_curr_frame := false } F.events).aborted := by
  unfold frame_head
  simp only
  split_ifs with h
  · simp [h]
  · simp at h; simp [h]

theorem frame_swapchain (K : Headers) (window queue render_pipeline : Handle) (d : demo)
    (F : FrameEnv) (hs : d.swapchain ≠ 0)
    (ha : (frame K window queue render_pipeline d F).aborted = false) :
    (frame K window queue render_pipeline d F).demo.swapchain ≠ 0 ∧
    swapchains_released (frame K window queue render_pipeline d F).calls ++
        [(frame K window queue render_pipeline d F).demo.swapchain] =
      d.swapchain :: swapchains_created (frame K window queue render_pipeline d F).calls := by
  have hab := frame_head_not_aborted K window queue render_pipeline d F ha
  have hdemo := frame_demo_eq K window queue render_pipeline d F hab
  have hsc : (frame K window queue render_pipeline d F).demo.swapchain =
      (after_poll K window d F).swapchain := by rw [hdemo]
  rw [frame_head_aborted_eq] at hab
  obtain ⟨d1, e1, e2, e3⟩ := dispatch_events_swapchain K window F.events
    { d with skip_curr_frame := false } hs hab
  have hap : after_poll K window d F = d1 := by
    unfold after_poll; rw [e1]; rfl
  rw [hsc, hap, frame_swapchains_released, frame_swapchains_created]
  exact ⟨e2, e3⟩

theorem render_loop_swapchain (K : Headers) (window queue render_pipeline : Handle)
    (Fs : List FrameEnv) :
    ∀ d : demo, d.swapchain ≠ 0 →
      (render_loop K window queue render_pipeline d Fs).aborted = false →
      (render_loop K window queue render_pipeline d Fs).demo.swapchain ≠ 0 ∧
      swapchains_released (render_loop K window queue render_pipeline d Fs).calls ++
          [(render_loop K window queue render_pipeline d Fs).demo.swapchain] =
        d.swapchain ::
          swapchains_created (render_loop K window queue render_pipeline d Fs).calls := by
  induction Fs with
  | nil =>
    intro d hs _
    simp [render_loop, hs, swapchains_released, swapchains_created, Call.swapchainReleased,
      Call.swapchainCreated]
  | cons F Fs ih =>
    intro d hs ha
    unfold render_loop at ha ⊢
    simp only at ha ⊢
    by_cases hf : (frame K window queue render_pipeline d F).aborted = true
    · simp [hf] at ha
    · have hf2 : (frame K window queue render_pipeline d F).aborted = false := by
        simpa using hf
      simp only [hf2, Bool.false_eq_true, if_false] at ha ⊢
      obtain ⟨f1, f2⟩ := frame_swapchain K window queue render_pipeline d F hs hf2
      obtain ⟨g1, g2⟩ := ih _ f1 ha
      refine ⟨g1, ?_⟩
      unfold swapchains_released swapchains_created at *
      simp only [List.filterMap_append, List.filterMap_cons, List.filterMap_nil,
        Call.swapchainReleased, Call.swapchainCreated, List.nil_append, List.append_assoc]
      rw [g2, ← List.cons_append, ← f2]
      simp

theorem render_loop_no_terminate (K : Headers) (window queue render_pipeline : Handle)
    (Fs : List FrameEnv) :
    ∀ d : demo,
      (render_loop K window queue render_pipeline d Fs).calls.countP Call.isTerminate = 0 := by
  induction Fs with
  | nil => intro d; simp [render_loop, Call.isTerminate]
  | cons F Fs ih =>
    intro d
    have hf := frame_no_terminate K window queue render_pipeline d F
    unfold render_loop
    simp only
    split_ifs
    · simp [List.countP_append, hf, Call.isTerminate, List.countP_cons]
    · simp [List.countP_append, hf, ih, Call.isTerminate, List.countP_cons]

theorem filter_map_release (h : Handle) (x : Call) (ps : List (Handle × Call)) :
    (((h, x) :: ps).filter (fun p => decide (p.1 ≠ 0))).map Prod.snd =
      (if h ≠ 0 then [x] else []) ++
        ((ps.filter (fun p => decide (p.1 ≠ 0))).map Prod.snd) := by
  by_cases hh : h = 0 <;> simp [List.filter_cons, hh]

theorem cleanup_eq_expected (l : Locals) : cleanup l = expected_cleanup l := by
  unfold cleanup expected_cleanup
  simp only [filter_map_release, List.filter_nil, List.map_nil, List.append_nil,
    List.append_assoc]

theorem filterMap_ite_singleton {β : Type} (f : Call → Option β) (p : Prop) [Decidable p]
    (x : Call) (hx : f x = none) : List.filterMap f (if p then [x] else []) = [] := by
  split_ifs <;> simp [hx]

theorem cleanup_swapchains_released (l : Locals) :
    swapchains_released (cleanup l) =
      if l.demo.swapchain ≠ 0 then [l.demo.swapchain] else [] := by
  unfold cleanup swapchains_released
  simp only [List.filterMap_append]
  rw [filterMap_ite_singleton _ _ _ rfl, filterMap_ite_singleton _ _ _ rfl,
    filterMap_ite_singleton _ _ _ rfl, filterMap_ite_singleton _ (l.queue ≠ 0) _ rfl,
    filterMap_ite_singleton _ (l.demo.device ≠ 0) _ rfl,
    filterMap_ite_singleton _ (l.demo.adapter ≠ 0) _ rfl,
    filterMap_ite_singleton _ (l.demo.surface ≠ 0) _ rfl,
    filterMap_ite_singleton _ (l.window ≠ 0) _ rfl,
    filterMap_ite_singleton _ (l.demo.«instance» ≠ 0) _ rfl]
  split_ifs <;> simp [Call.swapchainReleased]

theorem cleanup_swapchains_created (l : Locals) : swapchains_created (cleanup l) = [] := by
  unfold cleanup swapchains_created
  simp only [List.filterMap_append]
  rw [filterMap_ite_singleton _ _ _ rfl, filterMap_ite_singleton _ _ _ rfl,
    filterMap_ite_singleton _ _ _ rfl, filterMap_ite_singleton _ _ _ rfl,
    filterMap_ite_singleton _ _ _ rfl, filterMap_ite_singleton _ _ _ rfl,
    filterMap_ite_singleton _ _ _ rfl, filterMap_ite_singleton _ _ _ rfl,
    filterMap_ite_singleton _ _ _ rfl, filterMap_ite_singleton _ _ _ rfl]
  simp [Call.swapchainCreated]

theorem isInitCall_quiet (x : Call) (h : x.isInitCall = true) :
    x.isTerminate = false ∧ x.swapchainReleased = none ∧ x.swapchainCreated = none := by
  cases x <;> first | exact ⟨rfl, rfl, rfl⟩ | cases h

theorem init_calls_quiet (c : List Call) (h : ∀ x ∈ c, x.isInitCall = true) :
    c.countP Call.isTerminate = 0 ∧ swapchains_released c = [] ∧ swapchains_created c = [] := by
  refine ⟨?_, ?_, ?_⟩
  · rw [List.countP_eq_zero]
    intro x hx hc
    rw [(isInitCall_quiet x (h x hx)).1] at hc
    exact Bool.noConfusion hc
  · exact filterMap_eq_nil_of_forall _ _ (fun x hx => (isInitCall_quiet x (h x hx)).2.1)
  · exact filterMap_eq_nil_of_forall _ _ (fun x hx => (isInitCall_quiet x (h x hx)).2.2)

theorem ASSERT_CHECK_facts (K : Headers) (E : Env) (expr : String) (line : Int) (l : Locals)
    (c : List Call) (h : init_invariant K l c) : run_facts K E (ASSERT_CHECK expr line l c) := by
  obtain ⟨h1, h2, h3⟩ := h
  obtain ⟨q1, q2, q3⟩ := init_calls_quiet c h3
  refine ⟨Or.inl rfl, h1, Or.inl rfl, fun _ => ⟨_, rfl, ?_, ?_⟩⟩
  · simp [List.countP_append, q1, Call.isTerminate, List.countP_cons]
  · have r1 := cleanup_swapchains_released l
    have r2 := cleanup_swapchains_created l
    unfold swapchains_released swapchains_created at *
    simp only [ASSERT_CHECK, cleanup_and_exit, List.filterMap_append, q2, q3, r1, r2, h2]
    simp [Call.swapchainReleased, Call.swapchainCreated]

theorem main_swapchain_facts (K : Headers) (E : Env) (l : Locals) (c : List Call)
    (h : init_invariant K l c) : run_facts K E (main_swapchain K E l c) := by
  obtain ⟨h1, h2, h3⟩ := h
  obtain ⟨q1, q2, q3⟩ := init_calls_quiet c h3
  unfold main_swapchain
  simp only
  by_cases hs : E.swapchain = 0
  · simp only [hs, if_true]
    refine ⟨Or.inl rfl, h1, Or.inl rfl, fun _ => ⟨_, rfl, ?_, ?_⟩⟩
    · simp [List.countP_append, q1, Call.isTerminate, List.countP_cons]
    · have r1 := cleanup_swapchains_released
        { l with demo := { l.demo with
            config := ⟨K.WGPUTextureUsage_RenderAttachment, E.surface_preferred_format,
              toUint32 E.width, toUint32 E.height, K.WGPUPresentMode_Fifo⟩,
            swapchain := 0 } }
      have r2 := cleanup_swapchains_created
        { l with demo := { l.demo with
            config := ⟨K.WGPUTextureUsage_RenderAttachment, E.surface_preferred_format,
              toUint32 E.width, toUint32 E.height, K.WGPUPresentMode_Fifo⟩,
            swapchain := 0 } }
      unfold swapchains_released swapchains_created at *
      simp only [ASSERT_CHECK, cleanup_and_exit, List.filterMap_append, q2, q3, r1, r2]
      simp [Call.swapchainReleased, Call.swapchainCreated]
  · simp only [hs, if_false]
    unfold main_loop
    simp only
    split_ifs with ha
    · exact ⟨Or.inr rfl, h1, Or.inr ⟨_, _, _, _, rfl⟩, fun hc => by simp at hc⟩
    · have ha2 : (render_loop K l.window l.queue l.render_pipeline
          { l.demo with
            config := ⟨K.WGPUTextureUsage_RenderAttachment, E.surface_preferred_format,
              toUint32 E.width, toUint32 E.height, K.WGPUPresentMode_Fifo⟩,
            swapchain := E.swapchain } E.frames).aborted = false := by simpa using ha
      obtain ⟨g1, g2⟩ := render_loop_swapchain K l.window l.queue l.render_pipeline E.frames
        { l.demo with
            config := ⟨K.WGPUTextureUsage_RenderAttachment, E.surface_preferred_format,
              toUint32 E.width, toUint32 E.height, K.WGPUPresentMode_Fifo⟩,
            swapchain := E.swapchain } hs ha2
      have g3 := render_loop_no_terminate K l.window l.queue l.render_pipeline E.frames
        { l.demo with
            config := ⟨K.WGPUTextureUsage_RenderAttachment, E.surface_preferred_format,
              toUint32 E.width, toUint32 E.height, K.WGPUPresentMode_Fifo⟩,
            swapchain := E.swapchain }
      refine ⟨Or.inl rfl, h1, Or.inr ⟨_, _, _, _, rfl⟩, fun _ => ⟨_, rfl, ?_, ?_⟩⟩
      · simp [List.countP_append, q1, g3, Call.isTerminate, List.countP_cons]
      · have r1 := cleanup_swapchains_released
          { l with demo := (render_loop K l.window l.queue l.render_pipeline
            { l.demo with
              config := ⟨K.WGPUTextureUsage_RenderAttachment, E.surface_preferred_format,
                toUint32 E.width, toUint32 E.height, K.WGPUPresentMode_Fifo⟩,
              swapchain := E.swapchain } E.frames).demo }
        have r2 := cleanup_swapchains_created
          { l with demo := (render_loop K l.window l.queue l.render_pipeline
            { l.demo with
              config := ⟨K.WGPUTextureUsage_RenderAttachment, E.surface_preferred_format,
                toUint32 E.width, toUint32 E.height, K.WGPUPresentMode_Fifo⟩,
              swapchain := E.swapchain } E.frames).demo }
        unfold swapchains_released swapchains_created at *
        simp only [cleanup_and_exit, List.filterMap_append, q2, q3, r1, r2]
        simp only [g1, ne_eq, not_false_eq_true, if_true, List.filterMap_cons,
          List.filterMap_nil, Call.swapchainReleased, Call.swapchainCreated, hs,
          List.nil_append, List.append_nil]
        simpa using g2

theorem main_facts (K : Headers) (T : Target) (E : Env) : run_facts K E (main K T E) := by
  rw [main_eq_run_steps]
  apply run_steps_inv (init_invariant K) (run_facts K E) _ _
    (init_sequence_invariant K T E)
    (fun expr line l c h => ASSERT_CHECK_facts K E expr line l c h)
    (fun l c h => main_swapchain_facts K E l c h)
  exact ⟨rfl, rfl, fun x hx => by simp at hx⟩

/-! ## Initialization order -/

theorem deliver_adapter_adapter (K : Headers) (rs : List RequestResult) :
    ∀ d : demo, (deliver_adapter K d rs).1.adapter =
      last_success K.WGPURequestAdapterStatus_Success d.adapter rs := by
  induction rs with
  | nil => intro d; rfl
  | cons r rs ih =>
    intro d
    simp only [deliver_adapter, last_success]
    rw [ih]
    unfold handle_request_adapter
    split_ifs <;> rfl

theorem deliver_device_device (K : Headers) (rs : List RequestResult) :
    ∀ d : demo, (deliver_device K d rs).1.device =
      last_success K.WGPURequestDeviceStatus_Success d.device rs := by
  induction rs with
  | nil => intro d; rfl
  | cons r rs ih =>
    intro d
    simp only [deliver_device, last_success]
    rw [ih]
    unfold handle_request_device
    split_ifs <;> rfl

theorem deliver_adapter_device (K : Headers) (rs : List RequestResult) (d : demo) :
    (deliver_adapter K d rs).1.device = d.device := by
  rw [(deliver_adapter_spec K rs d).1]

theorem init_steps_printf (c : List Call) (h : ∀ x ∈ c, x.isPrintf = true) :
    init_steps c = [] ∧ c.countP Call.isLoopCall = 0 := by
  constructor
  · apply filterMap_eq_nil_of_forall
    intro x hx
    have hp := h x hx
    clear hx h
    cases x <;> first | rfl | cases hp
  · rw [List.countP_eq_zero]
    intro x hx hl
    have hp := h x hx
    clear hx h
    cases x <;> first | (cases hp; done) | cases hl

theorem init_steps_deliver_adapter (K : Headers) (rs : List RequestResult) (d : demo) :
    List.filterMap Call.initStep (deliver_adapter K d rs).2 = [] ∧
      (deliver_adapter K d rs).2.countP Call.isLoopCall = 0 :=
  init_steps_printf _ (deliver_adapter_spec K rs d).2

theorem init_steps_deliver_device (K : Headers) (rs : List RequestResult) (d : demo) :
    List.filterMap Call.initStep (deliver_device K d rs).2 = [] ∧
      (deliver_device K d rs).2.countP Call.isLoopCall = 0 :=
  init_steps_printf _ (deliver_device_spec K rs d).2

theorem init_steps_create_surface (K : Headers) (T : Target) (E : Env) (inst window : Handle) :
    List.filterMap Call.initStep (create_surface K T E inst window) = [4] ∧
      (create_surface K T E inst window).countP Call.isLoopCall = 0 := by
  cases T <;> simp [create_surface, Call.initStep, Call.isLoopCall]

theorem init_steps_start (K : Headers) (T : Target) (x : Int) :
    List.filterMap Call.initStep
        ([Call.frmwrk_setup_logging K.WGPULogLevel_Warn] ++
          (if T = Target.LINUX_WAYLAND then
            [Call.glfwInitHint K.GLFW_PLATFORM K.GLFW_PLATFORM_WAYLAND] else []) ++
          [Call.glfwInit x]) = [1] ∧
      ([Call.frmwrk_setup_logging K.WGPULogLevel_Warn] ++
          (if T = Target.LINUX_WAYLAND then
            [Call.glfwInitHint K.GLFW_PLATFORM K.GLFW_PLATFORM_WAYLAND] else []) ++
          [Call.glfwInit x]).countP Call.isLoopCall = 0 := by
  split_ifs <;> simp [Call.initStep, Call.isLoopCall]

theorem init_steps_hint (K : Headers) (T : Target) :
    List.filterMap Call.initStep
        (if T = Target.LINUX_WAYLAND then
          [Call.glfwInitHint K.GLFW_PLATFORM K.GLFW_PLATFORM_WAYLAND] else []) = [] ∧
      (if T = Target.LINUX_WAYLAND then
          [Call.glfwInitHint K.GLFW_PLATFORM K.GLFW_PLATFORM_WAYLAND] else []).countP
        Call.isLoopCall = 0 := by
  split_ifs <;> simp [Call.initStep, Call.isLoopCall]

theorem main_fail_1 (K : Headers) (T : Target) (E : Env)
    (h1 : E.glfwInit = 0) :
    ∃ expr line l c, main K T E = ASSERT_CHECK expr line l c ∧
      init_steps c = List.range' 1 1 ∧ c.countP Call.isLoopCall = 0 := by
  rw [main_eq_run_steps]
  simp only [init_sequence, run_steps, initial_locals, main_swapchain, h1,
    ne_eq, not_true_eq_false, not_false_eq_true, decide_False, decide_True,
    Bool.false_eq_true, if_false, if_true, List.nil_append, deliver_adapter_adapter,
    deliver_device_device, deliver_adapter_device]
  refine ⟨_, _, _, _, rfl, ?_, ?_⟩
  · simp only [init_steps, List.filterMap_append, (init_steps_hint K T).1,
      (init_steps_create_surface K T E _ _).1, (init_steps_deliver_adapter K _ _).1,
      (init_steps_deliver_device K _ _).1, List.filterMap_cons, List.filterMap_nil,
      Call.initStep, List.append_nil, List.nil_append, List.singleton_append, List.cons_append]
    rfl
  · simp only [List.countP_append, (init_steps_hint K T).2,
      (init_steps_create_surface K T E _ _).2, (init_steps_deliver_adapter K _ _).2,
      (init_steps_deliver_device K _ _).2, List.countP_cons, List.countP_nil,
      Call.isLoopCall, Bool.false_eq_true, if_false, add_zero]

theorem main_fail_2 (K : Headers) (T : Target) (E : Env)
    (h1 : E.glfwInit ≠ 0) (h2 : E.«instance» = 0) :
    ∃ expr line l c, main K T E = ASSERT_CHECK expr line l c ∧
      init_steps c = List.range' 1 2 ∧ c.countP Call.isLoopCall = 0 := by
  rw [main_eq_run_steps]
  simp only [init_sequence, run_steps, initial_locals, main_swapchain, h1, h2,
    ne_eq, not_true_eq_false, not_false_eq_true, decide_False, decide_True,
    Bool.false_eq_true, if_false, if_true, List.nil_append, deliver_adapter_adapter,
    deliver_device_device, deliver_adapter_device]
  refine ⟨_, _, _, _, rfl, ?_, ?_⟩
  · simp only [init_steps, List.filterMap_append, (init_steps_hint K T).1,
      (init_steps_create_surface K T E _ _).1, (init_steps_deliver_adapter K _ _).1,
      (init_steps_deliver_device K _ _).1, List.filterMap_cons, List.filterMap_nil,
      Call.initStep, List.append_nil, List.nil_append, List.singleton_append, List.cons_append]
    rfl
  · simp only [List.countP_append, (init_steps_hint K T).2,
      (init_steps_create_surface K T E _ _).2, (init_steps_deliver_adapter K _ _).2,
      (init_steps_deliver_device K _ _).2, List.countP_cons, List.countP_nil,
      Call.isLoopCall, Bool.false_eq_true, if_false, add_zero]

theorem main_fail_3 (K : Headers) (T : Target) (E : Env)
    (h1 : E.glfwInit ≠ 0) (h2 : E.«instance» ≠ 0) (h3 : E.window = 0) :
    ∃ expr line l c, main K T E = ASSERT_CHECK expr line l c ∧
      init_steps c = List.range' 1 3 ∧ c.countP Call.isLoopCall = 0 := by
  rw [main_eq_run_steps]
  simp only [init_sequence, run_steps, initial_locals, main_swapchain, h1, h2, h3,
    ne_eq, not_true_eq_false, not_false_eq_true, decide_False, decide_True,
    Bool.false_eq_true, if_false, if_true, List.nil_append, deliver_adapter_adapter,
    deliver_device_device, deliver_adapter_device]
  refine ⟨_, _, _, _, rfl, ?_, ?_⟩
  · simp only [init_steps, List.filterMap_append, (init_steps_hint K T).1,
      (init_steps_create_surface K T E _ _).1, (init_steps_deliver_adapter K _ _).1,
      (init_steps_deliver_device K _ _).1, List.filterMap_cons, List.filterMap_nil,
      Call.initStep, List.append_nil, List.nil_append, List.singleton_append, List.cons_append]
    rfl
  · simp only [List.countP_append, (init_steps_hint K T).2,
      (init_steps_create_surface K T E _ _).2, (init_steps_deliver_adapter K _ _).2,
      (init_steps_deliver_device K _ _).2, List.countP_cons, List.countP_nil,
      Call.isLoopCall, Bool.false_eq_true, if_false, add_zero]

theorem main_fail_4 (K : Headers) (T : Target) (E : Env)
    (h1 : E.glfwInit ≠ 0) (h2 : E.«instance» ≠ 0) (h3 : E.window ≠ 0) (h4 : E.surface = 0) :
    ∃ expr line l c, main K T E = ASSERT_CHECK expr line l c ∧
      init_steps c = List.range' 1 4 ∧ c.countP Call.isLoopCall = 0 := by
  rw [main_eq_run_steps]
  simp only [init_sequence, run_steps, initial_locals, main_swapchain, h1, h2, h3, h4,
    ne_eq, not_true_eq_false, not_false_eq_true, decide_False, decide_True,
    Bool.false_eq_true, if_false, if_true, List.nil_append, deliver_adapter_adapter,
    deliver_device_device, deliver_adapter_device]
  refine ⟨_, _, _, _, rfl, ?_, ?_⟩
  · simp only [init_steps, List.filterMap_append, (init_steps_hint K T).1,
      (init_steps_create_surface K T E _ _).1, (init_steps_deliver_adapter K _ _).1,
      (init_steps_deliver_device K _ _).1, List.filterMap_cons, List.filterMap_nil,
      Call.initStep, List.append_nil, List.nil_append, List.singleton_append, List.cons_append]
    rfl
  · simp only [List.countP_append, (init_steps_hint K T).2,
      (init_steps_create_surface K T E _ _).2, (init_steps_deliver_adapter K _ _).2,
      (init_steps_deliver_device K _ _).2, List.countP_cons, List.countP_nil,
      Call.isLoopCall, Bool.false_eq_true, if_false, add_zero]

theorem main_fail_5 (K : Headers) (T : Target) (E : Env)
    (h1 : E.glfwInit ≠ 0) (h2 : E.«instance» ≠ 0) (h3 : E.window ≠ 0) (h4 : E.surface ≠ 0)
    (h5 : last_success K.WGPURequestAdapterStatus_Success 0 E.adapter_results = 0) :
    ∃ expr line l c, main K T E = ASSERT_CHECK expr line l c ∧
      init_steps c = List.range' 1 5 ∧ c.countP Call.isLoopCall = 0 := by
  rw [main_eq_run_steps]
  simp only [init_sequence, run_steps, initial_locals, main_swapchain, h1, h2, h3, h4, h5,
    ne_eq, not_true_eq_false, not_false_eq_true, decide_False, decide_True,
    Bool.false_eq_true, if_false, if_true, List.nil_append, deliver_adapter_adapter,
    deliver_device_device, deliver_adapter_device]
  refine ⟨_, _, _, _, rfl, ?_, ?_⟩
  · simp only [init_steps, List.filterMap_append, (init_steps_hint K T).1,
      (init_steps_create_surface K T E _ _).1, (init_steps_deliver_adapter K _ _).1,
      (init_steps_deliver_device K _ _).1, List.filterMap_cons, List.filterMap_nil,
      Call.initStep, List.append_nil, List.nil_append, List.singleton_append, List.cons_append]
    rfl
  · simp only [List.countP_append, (init_steps_hint K T).2,
      (init_steps_create_surface K T E _ _).2, (init_steps_deliver_adapter K _ _).2,
      (init_steps_deliver_device K _ _).2, List.countP_cons, List.countP_nil,
      Call.isLoopCall, Bool.false_eq_true, if_false, add_zero]

theorem main_fail_6 (K : Headers) (T : Target) (E : Env)
    (h1 : E.glfwInit ≠ 0) (h2 : E.«instance» ≠ 0) (h3 : E.window ≠ 0) (h4 : E.surface ≠ 0)
    (h5 : last_success K.WGPURequestAdapterStatus_Success 0 E.adapter_results ≠ 0)
    (h6 : last_success K.WGPURequestDeviceStatus_Success 0 E.device_results = 0) :
    ∃ expr line l c, main K T E = ASSERT_CHECK expr line l c ∧
      init_steps c = List.range' 1 6 ∧ c.countP Call.isLoopCall = 0 := by
  rw [main_eq_run_steps]
  simp only [init_sequence, run_steps, initial_locals, main_swapchain, h1, h2, h3, h4, h5, h6,
    ne_eq, not_true_eq_false, not_false_eq_true, decide_False, decide_True,
    Bool.false_eq_true, if_false, if_true, List.nil_append, deliver_adapter_adapter,
    deliver_device_device, deliver_adapter_device]
  refine ⟨_, _, _, _, rfl, ?_, ?_⟩
  · simp only [init_steps, List.filterMap_append, (init_steps_hint K T).1,
      (init_steps_create_surface K T E _ _).1, (init_steps_deliver_adapter K _ _).1,
      (init_steps_deliver_device K _ _).1, List.filterMap_cons, List.filterMap_nil,
      Call.initStep, List.append_nil, List.nil_append, List.singleton_append, List.cons_append]
    rfl
  · simp only [List.countP_append, (init_steps_hint K T).2,
      (init_steps_create_surface K T E _ _).2, (init_steps_deliver_adapter K _ _).2,
      (init_steps_deliver_device K _ _).2, List.countP_cons, List.countP_nil,
      Call.isLoopCall, Bool.false_eq_true, if_false, add_zero]

theorem main_fail_7 (K : Headers) (T : Target) (E : Env)
    (h1 : E.glfwInit ≠ 0) (h2 : E.«instance» ≠ 0) (h3 : E.window ≠ 0) (h4 : E.surface ≠ 0)
    (h5 : last_success K.WGPURequestAdapterStatus_Success 0 E.adapter_results ≠ 0)
    (h6 : last_success K.WGPURequestDeviceStatus_Success 0 E.device_results ≠ 0)
    (h7 : E.queue = 0) :
    ∃ expr line l c, main K T E = ASSERT_CHECK expr line l c ∧
      init_steps c = List.range' 1 7 ∧ c.countP Call.isLoopCall = 0 := by
  rw [main_eq_run_steps]
  simp only [init_sequence, run_steps, initial_locals, main_swapchain, h1, h2, h3, h4, h5, h6, h7,
    ne_eq, not_true_eq_false, not_false_eq_true, decide_False, decide_True,
    Bool.false_eq_true, if_false, if_true, List.nil_append, deliver_adapter_adapter,
    deliver_device_device, deliver_adapter_device]
  refine ⟨_, _, _, _, rfl, ?_, ?_⟩
  · simp only [init_steps, List.filterMap_append, (init_steps_hint K T).1,
      (init_steps_create_surface K T E _ _).1, (init_steps_deliver_adapter K _ _).1,
      (init_steps_deliver_device K _ _).1, List.filterMap_cons, List.filterMap_nil,
      Call.initStep, List.append_nil, List.nil_append, List.singleton_append, List.cons_append]
    rfl
  · simp only [List.countP_append, (init_steps_hint K T).2,
      (init_steps_create_surface K T E _ _).2, (init_steps_deliver_adapter K _ _).2,
      (init_steps_deliver_device K _ _).2, List.countP_cons, List.countP_nil,
      Call.isLoopCall, Bool.false_eq_true, if_false, add_zero]

theorem main_fail_8 (K : Headers) (T : Target) (E : Env)
    (h1 : E.glfwInit ≠ 0) (h2 : E.«instance» ≠ 0) (h3 : E.window ≠ 0) (h4 : E.surface ≠ 0)
    (h5 : last_success K.WGPURequestAdapterStatus_Success 0 E.adapter_results ≠ 0)
    (h6 : last_success K.WGPURequestDeviceStatus_Success 0 E.device_results ≠ 0)
    (h7 : E.queue ≠ 0) (h8 : E.shader_module = 0) :
    ∃ expr line l c, main K T E = ASSERT_CHECK expr line l c ∧
      init_steps c = List.range' 1 8 ∧ c.countP Call.isLoopCall = 0 := by
  rw [main_eq_run_steps]
  simp only [init_sequence, run_steps, initial_locals, main_swapchain, h1, h2, h3, h4, h5, h6, h7, h8,
    ne_eq, not_true_eq_false, not_false_eq_true, decide_False, decide_True,
    Bool.false_eq_true, if_false, if_true, List.nil_append, deliver_adapter_adapter,
    deliver_device_device, deliver_adapter_device]
  refine ⟨_, _, _, _, rfl, ?_, ?_⟩
  · simp only [init_steps, List.filterMap_append, (init_steps_hint K T).1,
      (init_steps_create_surface K T E _ _).1, (init_steps_deliver_adapter K _ _).1,
      (init_steps_deliver_device K _ _).1, List.filterMap_cons, List.filterMap_nil,
      Call.initStep, List.append_nil, List.nil_append, List.singleton_append, List.cons_append]
    rfl
  · simp only [List.countP_append, (init_steps_hint K T).2,
      (init_steps_create_surface K T E _ _).2, (init_steps_deliver_adapter K _ _).2,
      (init_steps_deliver_device K _ _).2, List.countP_cons, List.countP_nil,
      Call.isLoopCall, Bool.false_eq_true, if_false, add_zero]

theorem main_fail_9 (K : Headers) (T : Target) (E : Env)
    (h1 : E.glfwInit ≠ 0) (h2 : E.«instance» ≠ 0) (h3 : E.window ≠ 0) (h4 : E.surface ≠ 0)
    (h5 : last_success K.WGPURequestAdapterStatus_Success 0 E.adapter_results ≠ 0)
    (h6 : last_success K.WGPURequestDeviceStatus_Success 0 E.device_results ≠ 0)
    (h7 : E.queue ≠ 0) (h8 : E.shader_module ≠ 0) (h9 : E.pipeline_layout = 0) :
    ∃ expr line l c, main K T E = ASSERT_CHECK expr line l c ∧
      init_steps c = List.range' 1 9 ∧ c.countP Call.isLoopCall = 0 := by
  rw [main_eq_run_steps]
  simp only [init_sequence, run_steps, initial_locals, main_swapchain, h1, h2, h3, h4, h5, h6, h7, h8, h9,
    ne_eq, not_true_eq_false, not_false_eq_true, decide_False, decide_True,
    Bool.false_eq_true, if_false, if_true, List.nil_append, deliver_adapter_adapter,
    deliver_device_device, deliver_adapter_device]
  refine ⟨_, _, _, _, rfl, ?_, ?_⟩
  · simp only [init_steps, List.filterMap_append, (init_steps_hint K T).1,
      (init_steps_create_surface K T E _ _).1, (init_steps_deliver_adapter K _ _).1,
      (init_steps_deliver_device K _ _).1, List.filterMap_cons, List.filterMap_nil,
      Call.initStep, List.append_nil, List.nil_append, List.singleton_append, List.cons_append]
    rfl
  · simp only [List.countP_append, (init_steps_hint K T).2,
      (init_steps_create_surface K T E _ _).2, (init_steps_deliver_adapter K _ _).2,
      (init_steps_deliver_device K _ _).2, List.countP_cons, List.countP_nil,
      Call.isLoopCall, Bool.false_eq_true, if_false, add_zero]

theorem main_fail_10 (K : Headers) (T : Target) (E : Env)
    (h1 : E.glfwInit ≠ 0) (h2 : E.«instance» ≠ 0) (h3 : E.window ≠ 0) (h4 : E.surface ≠ 0)
    (h5 : last_success K.WGPURequestAdapterStatus_Success 0 E.adapter_results ≠ 0)
    (h6 : last_success K.WGPURequestDeviceStatus_Success 0 E.device_results ≠ 0)
    (h7 : E.queue ≠ 0) (h8 : E.shader_module ≠ 0) (h9 : E.pipeline_layout ≠ 0)
    (h10 : E.surface_preferred_format = K.WGPUTextureFormat_Undefined) :
    ∃ expr line l c, main K T E = ASSERT_CHECK expr line l c ∧
      init_steps c = List.range' 1 10 ∧ c.countP Call.isLoopCall = 0 := by
  rw [main_eq_run_steps]
  simp only [init_sequence, run_steps, initial_locals, main_swapchain, h1, h2, h3, h4, h5, h6, h7, h8, h9, h10,
    ne_eq, not_true_eq_false, not_false_eq_true, decide_False, decide_True,
    Bool.false_eq_true, if_false, if_true, List.nil_append, deliver_adapter_adapter,
    deliver_device_device, deliver_adapter_device]
  refine ⟨_, _, _, _, rfl, ?_, ?_⟩
  · simp only [init_steps, List.filterMap_append, (init_steps_hint K T).1,
      (init_steps_create_surface K T E _ _).1, (init_steps_deliver_adapter K _ _).1,
      (init_steps_deliver_device K _ _).1, List.filterMap_cons, List.filterMap_nil,
      Call.initStep, List.append_nil, List.nil_append, List.singleton_append, List.cons_append]
    rfl
  · simp only [List.countP_append, (init_steps_hint K T).2,
      (init_steps_create_surface K T E _ _).2, (init_steps_deliver_adapter K _ _).2,
      (init_steps_deliver_device K _ _).2, List.countP_cons, List.countP_nil,
      Call.isLoopCall, Bool.false_eq_true, if_false, add_zero]

theorem main_fail_11 (K : Headers) (T : Target) (E : Env)
    (h1 : E.glfwInit ≠ 0) (h2 : E.«instance» ≠ 0) (h3 : E.window ≠ 0) (h4 : E.surface ≠ 0)
    (h5 : last_success K.WGPURequestAdapterStatus_Success 0 E.adapter_results ≠ 0)
    (h6 : last_success K.WGPURequestDeviceStatus_Success 0 E.device_results ≠ 0)
    (h7 : E.queue ≠ 0) (h8 : E.shader_module ≠ 0) (h9 : E.pipeline_layout ≠ 0)
    (h10 : E.surface_preferred_format ≠ K.WGPUTextureFormat_Undefined)
    (h11 : E.render_pipeline = 0) :
    ∃ expr line l c, main K T E = ASSERT_CHECK expr line l c ∧
      init_steps c = List.range' 1 11 ∧ c.countP Call.isLoopCall = 0 := by
  rw [main_eq_run_steps]
  simp only [init_sequence, run_steps, initial_locals, main_swapchain, h1, h2, h3, h4, h5, h6, h7, h8, h9, h10, h11,
    ne_eq, not_true_eq_false, not_false_eq_true, decide_False, decide_True,
    Bool.false_eq_true, if_false, if_true, List.nil_append, deliver_adapter_adapter,
    deliver_device_device, deliver_adapter_device]
  refine ⟨_, _, _, _, rfl, ?_, ?_⟩
  · simp only [init_steps, List.filterMap_append, (init_steps_hint K T).1,
      (init_steps_create_surface K T E _ _).1, (init_steps_deliver_adapter K _ _).1,
      (init_steps_deliver_device K _ _).1, List.filterMap_cons, List.filterMap_nil,
      Call.initStep, List.append_nil, List.nil_append, List.singleton_append, List.cons_append]
    rfl
  · simp only [List.countP_append, (init_steps_hint K T).2,
      (init_steps_create_surface K T E _ _).2, (init_steps_deliver_adapter K _ _).2,
      (init_steps_deliver_device K _ _).2, List.countP_cons, List.countP_nil,
      Call.isLoopCall, Bool.false_eq_true, if_false, add_zero]

theorem main_fail_12 (K : Headers) (T : Target) (E : Env)
    (h1 : E.glfwInit ≠ 0) (h2 : E.«instance» ≠ 0) (h3 : E.window ≠ 0) (h4 : E.surface ≠ 0)
    (h5 : last_success K.WGPURequestAdapterStatus_Success 0 E.adapter_results ≠ 0)
    (h6 : last_success K.WGPURequestDeviceStatus_Success 0 E.device_results ≠ 0)
    (h7 : E.queue ≠ 0) (h8 : E.shader_module ≠ 0) (h9 : E.pipeline_layout ≠ 0)
    (h10 : E.surface_preferred_format ≠ K.WGPUTextureFormat_Undefined)
    (h11 : E.render_pipeline ≠ 0) (h12 : E.swapchain = 0) :
    ∃ expr line l c, main K T E = ASSERT_CHECK expr line l c ∧
      init_steps c = List.range' 1 12 ∧ c.countP Call.isLoopCall = 0 := by
  rw [main_eq_run_steps]
  simp only [init_sequence, run_steps, initial_locals, main_swapchain, h1, h2, h3, h4, h5, h6, h7, h8, h9, h10, h11, h12,
    ne_eq, not_true_eq_false, not_false_eq_true, decide_False, decide_True,
    Bool.false_eq_true, if_false, if_true, List.nil_append, deliver_adapter_adapter,
    deliver_device_device, deliver_adapter_device]
  refine ⟨_, _, _, _, rfl, ?_, ?_⟩
  · simp only [init_steps, List.filterMap_append, (init_steps_hint K T).1,
      (init_steps_create_surface K T E _ _).1, (init_steps_deliver_adapter K _ _).1,
      (init_steps_deliver_device K _ _).1, List.filterMap_cons, List.filterMap_nil,
      Call.initStep, List.append_nil, List.nil_append, List.singleton_append, List.cons_append]
    rfl
  · simp only [List.countP_append, (init_steps_hint K T).2,
      (init_steps_create_surface K T E _ _).2, (init_steps_deliver_adapter K _ _).2,
      (init_steps_deliver_device K _ _).2, List.countP_cons, List.countP_nil,
      Call.isLoopCall, Bool.false_eq_true, if_false, add_zero]

theorem main_init_ok (K : Headers) (T : Target) (E : Env)
    (h1 : E.glfwInit ≠ 0) (h2 : E.«instance» ≠ 0) (h3 : E.window ≠ 0) (h4 : E.surface ≠ 0)
    (h5 : last_success K.WGPURequestAdapterStatus_Success 0 E.adapter_results ≠ 0)
    (h6 : last_success K.WGPURequestDeviceStatus_Success 0 E.device_results ≠ 0)
    (h7 : E.queue ≠ 0) (h8 : E.shader_module ≠ 0) (h9 : E.pipeline_layout ≠ 0)
    (h10 : E.surface_preferred_format ≠ K.WGPUTextureFormat_Undefined)
    (h11 : E.render_pipeline ≠ 0) (h12 : E.swapchain ≠ 0) :
    ∃ l c, main K T E = main_loop K E l c ∧
      init_steps c = List.range' 1 12 ∧ c.countP Call.isLoopCall = 0 ∧
      l.demo.swapchain = E.swapchain := by
  rw [main_eq_run_steps]
  simp only [init_sequence, run_steps, initial_locals, main_swapchain, h1, h2, h3, h4, h5, h6, h7, h8, h9, h10, h11, h12,
    ne_eq, not_true_eq_false, not_false_eq_true, decide_False, decide_True,
    Bool.false_eq_true, if_false, if_true, List.nil_append, deliver_adapter_adapter,
    deliver_device_device, deliver_adapter_device]
  refine ⟨_, _, rfl, ?_, ?_, rfl⟩
  · simp only [init_steps, List.filterMap_append, (init_steps_hint K T).1,
      (init_steps_create_surface K T E _ _).1, (init_steps_deliver_adapter K _ _).1,
      (init_steps_deliver_device K _ _).1, List.filterMap_cons, List.filterMap_nil,
      Call.initStep, List.append_nil, List.nil_append, List.singleton_append, List.cons_append]
    rfl
  · simp only [List.countP_append, (init_steps_hint K T).2,
      (init_steps_create_surface K T E _ _).2, (init_steps_deliver_adapter K _ _).2,
      (init_steps_deliver_device K _ _).2, List.countP_cons, List.countP_nil,
      Call.isLoopCall, Bool.false_eq_true, if_false, add_zero]

theorem main_init_failure (K : Headers) (T : Target) (E : Env) (k : Nat)
    (hk1 : 1 ≤ k) (hk2 : k ≤ 12)
    (hprev : ∀ j, 1 ≤ j → j < k → step_ok K E j = true) (hfail : step_ok K E k = false) :
    ∃ expr line l c, main K T E = ASSERT_CHECK expr line l c ∧
      init_steps c = List.range' 1 k ∧ c.countP Call.isLoopCall = 0 := by
  interval_cases k
  · simp only [step_ok, decide_eq_false_iff_not, ne_eq, not_not] at hfail
    exact main_fail_1 K T E hfail
  · have h1 := hprev 1 (by decide) (by decide)
    simp only [step_ok, decide_eq_true_eq] at h1
    simp only [step_ok, decide_eq_false_iff_not, ne_eq, not_not] at hfail
    exact main_fail_2 K T E h1 hfail
  · have h1 := hprev 1 (by decide) (by decide)
    have h2 := hprev 2 (by decide) (by decide)
    simp only [step_ok, decide_eq_true_eq] at h1 h2
    simp only [step_ok, decide_eq_false_iff_not, ne_eq, not_not] at hfail
    exact main_fail_3 K T E h1 h2 hfail
  · have h1 := hprev 1 (by decide) (by decide)
    have h2 := hprev 2 (by decide) (by decide)
    have h3 := hprev 3 (by decide) (by decide)
    simp only [step_ok, decide_eq_true_eq] at h1 h2 h3
    simp only [step_ok, decide_eq_false_iff_not, ne_eq, not_not] at hfail
    exact main_fail_4 K T E h1 h2 h3 hfail
  · have h1 := hprev 1 (by decide) (by decide)
    have h2 := hprev 2 (by decide) (by decide)
    have h3 := hprev 3 (by decide) (by decide)
    have h4 := hprev 4 (by decide) (by decide)
    simp only [step_ok, decide_eq_true_eq] at h1 h2 h3 h4
    simp only [step_ok, decide_eq_false_iff_not, ne_eq, not_not] at hfail
    exact main_fail_5 K T E h1 h2 h3 h4 hfail
  · have h1 := hprev 1 (by decide) (by decide)
    have h2 := hprev 2 (by decide) (by decide)
    have h3 := hprev 3 (by decide) (by decide)
    have h4 := hprev 4 (by decide) (by decide)
    have h5 := hprev 5 (by decide) (by decide)
    simp only [step_ok, decide_eq_true_eq] at h1 h2 h3 h4 h5
    simp only [step_ok, decide_eq_false_iff_not, ne_eq, not_not] at hfail
    exact main_fail_6 K T E h1 h2 h3 h4 h5 hfail
  · have h1 := hprev 1 (by decide) (by decide)
    have h2 := hprev 2 (by decide) (by decide)
    have h3 := hprev 3 (by decide) (by decide)
    have h4 := hprev 4 (by decide) (by decide)
    have h5 := hprev 5 (by decide) (by decide)
    have h6 := hprev 6 (by decide) (by decide)
    simp only [step_ok, decide_eq_true_eq] at h1 h2 h3 h4 h5 h6
    simp only [step_ok, decide_eq_false_iff_not, ne_eq, not_not] at hfail
    exact main_fail_7 K T E h1 h2 h3 h4 h5 h6 hfail
  · have h1 := hprev 1 (by decide) (by decide)
    have h2 := hprev 2 (by decide) (by decide)
    have h3 := hprev 3 (by decide) (by decide)
    have h4 := hprev 4 (by decide) (by decide)
    have h5 := hprev 5 (by decide) (by decide)
    have h6 := hprev 6 (by decide) (by decide)
    have h7 := hprev 7 (by decide) (by decide)
    simp only [step_ok, decide_eq_true_eq] at h1 h2 h3 h4 h5 h6 h7
    simp only [step_ok, decide_eq_false_iff_not, ne_eq, not_not] at hfail
    exact main_fail_8 K T E h1 h2 h3 h4 h5 h6 h7 hfail
  · have h1 := hprev 1 (by decide) (by decide)
    have h2 := hprev 2 (by decide) (by decide)
    have h3 := hprev 3 (by decide) (by decide)
    have h4 := hprev 4 (by decide) (by decide)
    have h5 := hprev 5 (by decide) (by decide)
    have h6 := hprev 6 (by decide) (by decide)
    have h7 := hprev 7 (by decide) (by decide)
    have h8 := hprev 8 (by decide) (by decide)
    simp only [step_ok, decide_eq_true_eq] at h1 h2 h3 h4 h5 h6 h7 h8
    simp only [step_ok, decide_eq_false_iff_not, ne_eq, not_not] at hfail
    exact main_fail_9 K T E h1 h2 h3 h4 h5 h6 h7 h8 hfail
  · have h1 := hprev 1 (by decide) (by decide)
    have h2 := hprev 2 (by decide) (by decide)
    have h3 := hprev 3 (by decide) (by decide)
    have h4 := hprev 4 (by decide) (by decide)
    have h5 := hprev 5 (by decide) (by decide)
    have h6 := hprev 6 (by decide) (by decide)
    have h7 := hprev 7 (by decide) (by decide)
    have h8 := hprev 8 (by decide) (by decide)
    have h9 := hprev 9 (by decide) (by decide)
    simp only [step_ok, decide_eq_true_eq] at h1 h2 h3 h4 h5 h6 h7 h8 h9
    simp only [step_ok, decide_eq_false_iff_not, ne_eq, not_not] at hfail
    exact main_fail_10 K T E h1 h2 h3 h4 h5 h6 h7 h8 h9 hfail
  · have h1 := hprev 1 (by decide) (by decide)
    have h2 := hprev 2 (by decide) (by decide)
    have h3 := hprev 3 (by decide) (by decide)
    have h4 := hprev 4 (by decide) (by decide)
    have h5 := hprev 5 (by decide) (by decide)
    have h6 := hprev 6 (by decide) (by decide)
    have h7 := hprev 7 (by decide) (by decide)
    have h8 := hprev 8 (by decide) (by decide)
    have h9 := hprev 9 (by decide) (by decide)
    have h10 := hprev 10 (by decide) (by decide)
    simp only [step_ok, decide_eq_true_eq] at h1 h2 h3 h4 h5 h6 h7 h8 h9 h10
    simp only [step_ok, decide_eq_false_iff_not, ne_eq, not_not] at hfail
    exact main_fail_11 K T E h1 h2 h3 h4 h5 h6 h7 h8 h9 h10 hfail
  · have h1 := hprev 1 (by decide) (by decide)
    have h2 := hprev 2 (by decide) (by decide)
    have h3 := hprev 3 (by decide) (by decide)
    have h4 := hprev 4 (by decide) (by decide)
    have h5 := hprev 5 (by decide) (by decide)
    have h6 := hprev 6 (by decide) (by decide)
    have h7 := hprev 7 (by decide) (by decide)
    have h8 := hprev 8 (by decide) (by decide)
    have h9 := hprev 9 (by decide) (by decide)
    have h10 := hprev 10 (by decide) (by decide)
    have h11 := hprev 11 (by decide) (by decide)
    simp only [step_ok, decide_eq_true_eq] at h1 h2 h3 h4 h5 h6 h7 h8 h9 h10 h11
    simp only [step_ok, decide_eq_false_iff_not, ne_eq, not_not] at hfail
    exact main_fail_12 K T E h1 h2 h3 h4 h5 h6 h7 h8 h9 h10 h11 hfail

theorem main_init_success (K : Headers) (T : Target) (E : Env)
    (hall : ∀ j, 1 ≤ j → j ≤ 12 → step_ok K E j = true) :
    ∃ l c, main K T E = main_loop K E l c ∧
      init_steps c = List.range' 1 12 ∧ c.countP Call.isLoopCall = 0 ∧
      l.demo.swapchain = E.swapchain ∧ E.swapchain ≠ 0 := by
  have h1 := hall 1 (by decide) (by decide)
  have h2 := hall 2 (by decide) (by decide)
  have h3 := hall 3 (by decide) (by decide)
  have h4 := hall 4 (by decide) (by decide)
  have h5 := hall 5 (by decide) (by decide)
  have h6 := hall 6 (by decide) (by decide)
  have h7 := hall 7 (by decide) (by decide)
  have h8 := hall 8 (by decide) (by decide)
  have h9 := hall 9 (by decide) (by decide)
  have h10 := hall 10 (by decide) (by decide)
  have h11 := hall 11 (by decide) (by decide)
  have h12 := hall 12 (by decide) (by decide)
  simp only [step_ok, decide_eq_true_eq] at h1 h2 h3 h4 h5 h6 h7 h8 h9 h10 h11 h12
  obtain ⟨l, c, e1, e2, e3, e4⟩ := main_init_ok K T E h1 h2 h3 h4 h5 h6 h7 h8 h9 h10 h11 h12
  exact ⟨l, c, e1, e2, e3, e4, h12⟩

/-! ## The skip flag -/

theorem handle_curr_texture_error_skip (K : Headers) (type : Nat) (message : List Char)
    (d : demo) :
    (handle_curr_texture_error K type message d).1.skip_curr_frame = true ↔
      (d.skip_curr_frame = true ∨
        (type ≠ K.WGPUErrorType_NoError ∧ mentions_surface_loss message)) := by
  unfold handle_curr_texture_error mentions_surface_loss
  generalize "Surface timed out".toList = p1
  generalize "Surface is outdated".toList = p2
  generalize "Surface was lost".toList = p3
  have h1 := strstr_ne_none_iff message p1
  have h2 := strstr_ne_none_iff message p2
  have h3 := strstr_ne_none_iff message p3
  by_cases ht : type = K.WGPUErrorType_NoError
  · simp [ht]
  · by_cases a1 : strstr message p1 = none <;> by_cases a2 : strstr message p2 = none <;>
      by_cases a3 : strstr message p3 = none <;>
      simp [ht, a1, a2, a3, ← h1, ← h2, ← h3]

theorem deliver_errors_skip (K : Headers) (es : List ErrorReport) :
    ∀ d : demo, (deliver_errors K d es).1.skip_curr_frame = true ↔
      (d.skip_curr_frame = true ∨ ∃ e ∈ es, skips_frame K e) := by
  induction es with
  | nil => intro d; simp [deliver_errors]
  | cons e es ih =>
    intro d
    simp only [deliver_errors]
    rw [ih, handle_curr_texture_error_skip]
    simp only [List.mem_cons, exists_eq_or_imp, skips_frame]
    tauto

theorem handle_glfw_key_some (K : Headers) (window : Handle) (d : demo)
    (key scancode action mods : Int) :
    (handle_glfw_key K window (some d) key scancode action mods).demo = some d := by
  unfold handle_glfw_key
  by_cases h1 : key = K.GLFW_KEY_R ∧ (action = K.GLFW_PRESS ∨ action = K.GLFW_REPEAT) <;>
    by_cases h2 : d.«instance» = 0 <;> simp [h1, h2]

theorem handle_glfw_framebuffer_size_some (window : Handle) (d : demo)
    (width height : Int) (created : Handle) :
    ∃ d1, (handle_glfw_framebuffer_size window (some d) width height created).demo = some d1 ∧
      d1.skip_curr_frame = d.skip_curr_frame := by
  unfold handle_glfw_framebuffer_size
  by_cases h1 : width = 0 ∧ height = 0 <;> by_cases h2 : d.swapchain = 0 <;> simp [h1, h2]

theorem dispatch_events_some (K : Headers) (window : Handle) (evs : List Event) :
    ∀ d : demo, ∃ d1, (dispatch_events K window d evs).demo = some d1 ∧
      d1.skip_curr_frame = d.skip_curr_frame := by
  induction evs with
  | nil => intro d; exact ⟨d, rfl, rfl⟩
  | cons ev evs ih =>
    intro d
    cases ev with
    | key key scancode action mods =>
      have hk := handle_glfw_key_some K window d key scancode action mods
      unfold dispatch_events
      simp only
      split_ifs
      · exact ⟨d, hk, rfl⟩
      · simp only [hk, Option.getD_some]
        exact ih d
    | framebuffer_size width height created =>
      obtain ⟨d0, f1, f2⟩ := handle_glfw_framebuffer_size_some window d width height created
      unfold dispatch_events
      simp only
      split_ifs
      · exact ⟨d0, f1, f2⟩
      · simp only [f1, Option.getD_some]
        obtain ⟨d1, e1, e2⟩ := ih d0
        exact ⟨d1, e1, e2.trans f2⟩

theorem after_poll_skip (K : Headers) (window : Handle) (d : demo) (F : FrameEnv) :
    (after_poll K window d F).skip_curr_frame = false := by
  obtain ⟨d1, e1, e2⟩ := dispatch_events_some K window F.events
    { d with skip_curr_frame := false }
  unfold after_poll
  rw [e1]
  exact e2

theorem frame_head_demo (K : Headers) (window : Handle) (d : demo) (F : FrameEnv)
    (h : (frame_head K window d F).aborted = false) :
    (frame_head K window d F).demo =
      some (deliver_errors K (after_poll K window d F) F.errors).1 := by
  unfold frame_head after_poll at *
  simp only at h ⊢
  split_ifs at h ⊢
  rfl

theorem frame_skip_eq (K : Headers) (window queue render_pipeline : Handle) (d : demo)
    (F : FrameEnv) (hab : (frame_head K window d F).aborted = false) :
    (frame K window queue render_pipeline d F).skip =
      some (deliver_errors K (after_poll K window d F) F.errors).1.skip_curr_frame := by
  have hd := frame_head_demo K window d F hab
  unfold frame
  simp only [hab, hd, Option.getD_some, Bool.false_eq_true, if_false]
  cases hv : (deliver_errors K (after_poll K window d F) F.errors).1.skip_curr_frame <;> simp

theorem frame_skip_some (K : Headers) (window queue render_pipeline : Handle) (d : demo)
    (F : FrameEnv) (b : Bool) :
    (frame K window queue render_pipeline d F).skip = some b ↔
      ((frame_head K window d F).aborted = false ∧
        (b = true ↔ ∃ e ∈ F.errors, skips_frame K e)) := by
  by_cases hab : (frame_head K window d F).aborted = false
  · have hs := deliver_errors_skip K F.errors (after_poll K window d F)
    rw [after_poll_skip] at hs
    simp only [Bool.false_eq_true, false_or] at hs
    rw [frame_skip_eq K window queue render_pipeline d F hab]
    simp only [Option.some.injEq, hab, true_and]
    rw [← hs]
    cases b <;>
      cases (deliver_errors K (after_poll K window d F) F.errors).1.skip_curr_frame <;> simp
  · have hab2 : (frame_head K window d F).aborted = true := by simpa using hab
    unfold frame
    simp [hab2]

theorem frame_skip_none (K : Headers) (window queue render_pipeline : Handle) (d : demo)
    (F : FrameEnv) :
    (frame K window queue render_pipeline d F).skip = none ↔
      (frame_head K window d F).aborted = true := by
  by_cases hab : (frame_head K window d F).aborted = false
  · rw [frame_skip_eq K window queue render_pipeline d F hab]
    simp [hab]
  · have hab2 : (frame_head K window d F).aborted = true := by simpa using hab
    unfold frame
    simp [hab2]

theorem frame_entry_flag (K : Headers) (window queue render_pipeline : Handle) (d : demo)
    (F : FrameEnv) (b : Bool) :
    frame K window queue render_pipeline { d with skip_curr_frame := b } F =
      frame K window queue render_pipeline d F := by
  obtain ⟨d1, e1, _⟩ := dispatch_events_some K window F.events
    { d with skip_curr_frame := false }
  have hh : frame_head K window { d with skip_curr_frame := b } F = frame_head K window d F := rfl
  have hsome : ∃ d2, (frame_head K window d F).demo = some d2 := by
    unfold frame_head
    simp only
    split_ifs
    · exact ⟨d1, e1⟩
    · exact ⟨_, rfl⟩
  obtain ⟨d2, e2⟩ := hsome
  unfold frame
  simp only [hh, e2, Option.getD_some]

theorem frame_not_aborted_skip (K : Headers) (window queue render_pipeline : Handle) (d : demo)
    (F : FrameEnv) (h : (frame K window queue render_pipeline d F).aborted = false) :
    ∃ b, (frame K window queue render_pipeline d F).skip = some b := by
  have hab := frame_head_not_aborted K window queue render_pipeline d F h
  cases hs : (frame K window queue render_pipeline d F).skip with
  | some b => exact ⟨b, rfl⟩
  | none =>
    rw [frame_skip_none] at hs
    rw [hs] at hab
    exact Bool.noConfusion hab

theorem render_loop_skips (K : Headers) (window queue render_pipeline : Handle)
    (Fs : List FrameEnv) :
    ∀ (d : demo) (n : Nat) (b : Bool),
      (render_loop K window queue render_pipeline d Fs).skips[n]? = some b →
      ∃ F, Fs[n]? = some F ∧ (b = true ↔ ∃ e ∈ F.errors, skips_frame K e) := by
  induction Fs with
  | nil => intro d n b h; simp [render_loop] at h
  | cons F Fs ih =>
    intro d n b h
    unfold render_loop at h
    simp only at h
    by_cases ha : (frame K window queue render_pipeline d F).aborted = true
    · simp only [ha, if_true] at h
      cases hs : (frame K window queue render_pipeline d F).skip with
      | none => simp [hs] at h
      | some b0 =>
        simp only [hs, Option.toList] at h
        cases n with
        | zero =>
          simp only [List.getElem?_cons_zero, Option.some.injEq] at h
          subst h
          exact ⟨F, List.getElem?_cons_zero, ((frame_skip_some K window queue render_pipeline d F b0).mp hs).2⟩
        | succ n => simp at h
    · have ha2 : (frame K window queue render_pipeline d F).aborted = false := by
        simpa using ha
      obtain ⟨b0, hs⟩ := frame_not_aborted_skip K window queue render_pipeline d F ha2
      simp only [ha2, Bool.false_eq_true, if_false, hs, Option.toList, List.singleton_append]
        at h
      cases n with
      | zero =>
        simp only [List.getElem?_cons_zero, Option.some.injEq] at h
        subst h
        exact ⟨F, List.getElem?_cons_zero, ((frame_skip_some K window queue render_pipeline d F b0).mp hs).2⟩
      | succ n =>
        simp only [List.getElem?_cons_succ] at h
        obtain ⟨F1, g1, g2⟩ := ih _ n b h
        exact ⟨F1, by simpa using g1, g2⟩

/-! ## Cleanup and exit status -/

theorem cleanup_calls (l : Locals) : ∀ x ∈ cleanup l, x.isCleanupCall = true := by
  intro x hx
  simp only [cleanup, List.mem_append, List.mem_ite_nil_right, List.mem_singleton] at hx
  rcases hx with (((((((((h | h) | h) | h) | h) | h) | h) | h) | h) | h) | h
  all_goals (obtain ⟨_, rfl⟩ := h; rfl)

theorem cleanup_init_steps (l : Locals) :
    init_steps (cleanup l) = [] ∧ (cleanup l).countP Call.isLoopCall = 0 := by
  constructor
  · apply filterMap_eq_nil_of_forall
    intro x hx
    have hc := cleanup_calls l x hx
    clear hx
    cases x <;> first | rfl | cases hc
  · rw [List.countP_eq_zero]
    intro x hx hl
    have hc := cleanup_calls l x hx
    clear hx
    cases x <;> first | (cases hc; done) | cases hl

theorem cleanup_terminate (l : Locals) :
    ∃ releases, cleanup l = releases ++ [Call.glfwTerminate] ∧
      releases.countP Call.isTerminate = 0 := by
  refine ⟨_, rfl, ?_⟩
  rw [List.countP_eq_zero]
  intro x hx hl
  simp only [List.mem_append, List.mem_ite_nil_right, List.mem_singleton] at hx
  rcases hx with ((((((((h | h) | h) | h) | h) | h) | h) | h) | h) | h
  all_goals (obtain ⟨_, rfl⟩ := h; cases hl)

theorem handle_glfw_framebuffer_size_not_aborted (window : Handle) (p : Option demo)
    (width height : Int) (created : Handle) (h : created ≠ 0) :
    (handle_glfw_framebuffer_size window p width height created).aborted = false := by
  unfold handle_glfw_framebuffer_size
  cases p with
  | none => by_cases h1 : width = 0 ∧ height = 0 <;> simp [h1]
  | some d =>
    by_cases h1 : width = 0 ∧ height = 0 <;> by_cases h2 : d.swapchain = 0 <;>
      simp [h1, h2, h]

theorem dispatch_events_not_aborted (K : Headers) (window : Handle) (evs : List Event)
    (h : ∀ width height created, Event.framebuffer_size width height created ∈ evs →
      created ≠ 0) :
    ∀ d : demo, (dispatch_events K window d evs).aborted = false := by
  induction evs with
  | nil => intro d; rfl
  | cons ev evs ih =>
    intro d
    have ih2 := ih (fun w hh c hc => h w hh c (List.mem_cons_of_mem _ hc))
    cases ev with
    | key key scancode action mods =>
      have hk := (handle_glfw_key_swapchain K window d key scancode action mods).2.1
      unfold dispatch_events
      simp only [hk, Bool.false_eq_true, if_false]
      exact ih2 _
    | framebuffer_size width height created =>
      have hc := handle_glfw_framebuffer_size_not_aborted window (some d) width height created
        (h width height created (List.mem_cons_self _ _))
      unfold dispatch_events
      simp only [hc, Bool.false_eq_true, if_false]
      exact ih2 _

theorem frame_not_aborted (K : Headers) (window queue render_pipeline : Handle) (d : demo)
    (F : FrameEnv) (h : frame_asserts_hold K F) :
    (frame K window queue render_pipeline d F).aborted = false := by
  obtain ⟨h1, h2⟩ := h
  have hab : (frame_head K window d F).aborted = false := by
    rw [frame_head_aborted_eq]
    exact dispatch_events_not_aborted K window F.events h1 _
  by_cases hs : ∃ e ∈ F.errors, skips_frame K e
  · have hk := (frame_skip_some K window queue render_pipeline d F true).mpr
      ⟨hab, by simp [hs]⟩
    have hsk : ((frame_head K window d F).demo.getD d).skip_curr_frame = true := by
      by_contra hc
      simp [frame, hab, hc] at hk
    simp [frame, hab, hsk]
  · have hk := (frame_skip_some K window queue render_pipeline d F false).mpr
      ⟨hab, by simp [hs]⟩
    obtain ⟨_, _, habort⟩ := frame_skip_false K window queue render_pipeline d F hk
    rcases h2 with h2 | ⟨hv, he, hp, hb⟩
    · exact absurd h2 hs
    · rw [habort, frame_render_ok K queue render_pipeline _ F hv he hp hb]

theorem render_loop_not_aborted (K : Headers) (window queue render_pipeline : Handle)
    (Fs : List FrameEnv) (h : ∀ F ∈ Fs, frame_asserts_hold K F) :
    ∀ d : demo, (render_loop K window queue render_pipeline d Fs).aborted = false := by
  induction Fs with
  | nil => intro d; rfl
  | cons F Fs ih =>
    intro d
    have hf := frame_not_aborted K window queue render_pipeline d F
      (h F (List.mem_cons_self _ _))
    unfold render_loop
    simp only [hf, Bool.false_eq_true, if_false]
    exact ih (fun F1 h1 => h F1 (List.mem_cons_of_mem _ h1)) _

theorem main_aborted_loop (K : Headers) (T : Target) (E : Env)
    (h : (main K T E).exit = Exit.aborted) :
    ∃ window queue render_pipeline d,
      (render_loop K window queue render_pipeline d E.frames).aborted = true := by
  revert h
  rw [main_eq_run_steps]
  apply run_steps_inv (fun _ _ => True)
    (fun r => r.exit = Exit.aborted → ∃ window queue render_pipeline d,
      (render_loop K window queue render_pipeline d E.frames).aborted = true) _ _
    (fun _ _ _ _ _ => trivial)
  · intro expr line l c _ hc
    simp [ASSERT_CHECK, cleanup_and_exit] at hc
  · intro l c _
    unfold main_swapchain
    simp only
    split_ifs
    · intro hc
      simp [ASSERT_CHECK, cleanup_and_exit] at hc
    · unfold main_loop
      simp only
      split_ifs with ha
      · intro _
        exact ⟨_, _, _, _, ha⟩
      · intro hc
        simp [cleanup_and_exit] at hc
  · trivial

theorem first_failure_exists (K : Headers) (E : Env)
    (h : ¬ ∀ j, 1 ≤ j → j ≤ 12 → step_ok K E j = true) :
    ∃ k, 1 ≤ k ∧ k ≤ 12 ∧ (∀ j, 1 ≤ j → j < k → step_ok K E j = true) ∧
      step_ok K E k = false := by
  have hex : ∃ k, 1 ≤ k ∧ k ≤ 12 ∧ step_ok K E k = false := by
    by_contra hc
    apply h
    intro j h1 h2
    by_contra hj
    exact hc ⟨j, h1, h2, by simpa using hj⟩
  refine ⟨Nat.find hex, (Nat.find_spec hex).1, (Nat.find_spec hex).2.1, ?_,
    (Nat.find_spec hex).2.2⟩
  intro j h1 h2
  by_contra hj
  exact Nat.find_min hex h2
    ⟨h1, le_trans (le_of_lt h2) (Nat.find_spec hex).2.1, by simpa using hj⟩

/-- C4: `main` performs the twelve initialization steps in the fixed order.
When step `k` is the first whose result is null (zero, or the undefined
format), the steps performed are exactly 1 to `k`, once each and in order,
neither the loop condition nor `glfwPollEvents` is ever called, and after
the calls of step `k` come only the assert message and the cleanup section,
after which `main` returns.  When all twelve succeed, the twelve steps come
first and the loop condition is evaluated next; and the loop is reached only
if all twelve succeeded. -/
theorem C4_init_order_fail_fast (K : Headers) (T : Target) (E : Env) :
    (∀ k, 1 ≤ k → k ≤ 12 → (∀ j, 1 ≤ j → j < k → step_ok K E j = true) →
      step_ok K E k = false →
      init_steps (main K T E).calls = List.range' 1 k ∧
      (main K T E).calls.countP Call.isLoopCall = 0 ∧
      (main K T E).skips = [] ∧
      (∃ expr line c, (main K T E).calls =
          c ++ [Call.printf ( LOG_PREFIX ++ " assert failed %s: %s:%d\n")
            [PrintfArg.str expr, PrintfArg.file, PrintfArg.int line]] ++
            cleanup (main K T E).locals ∧
        init_steps c = List.range' 1 k) ∧
      (main K T E).exit = Exit.returned 0) ∧
    ((∀ j, 1 ≤ j → j ≤ 12 → step_ok K E j = true) →
      ∃ c window b rest,
        (main K T E).calls = c ++ Call.glfwWindowShouldClose window b :: rest ∧
        init_steps c = List.range' 1 12 ∧ c.countP Call.isLoopCall = 0) ∧
    (0 < (main K T E).calls.countP Call.isLoopCall →
      ∀ j, 1 ≤ j → j ≤ 12 → step_ok K E j = true) := by
  have part1 : ∀ k, 1 ≤ k → k ≤ 12 → (∀ j, 1 ≤ j → j < k → step_ok K E j = true) →
      step_ok K E k = false →
      init_steps (main K T E).calls = List.range' 1 k ∧
      (main K T E).calls.countP Call.isLoopCall = 0 ∧
      (main K T E).skips = [] ∧
      (∃ expr line c, (main K T E).calls =
          c ++ [Call.printf ( LOG_PREFIX ++ " assert failed %s: %s:%d\n")
            [PrintfArg.str expr, PrintfArg.file, PrintfArg.int line]] ++
            cleanup (main K T E).locals ∧
        init_steps c = List.range' 1 k) ∧
      (main K T E).exit = Exit.returned 0 := by
    intro k hk1 hk2 hprev hfail
    obtain ⟨expr, line, l, c, hm, hs, hl⟩ := main_init_failure K T E k hk1 hk2 hprev hfail
    obtain ⟨c1, c2⟩ := cleanup_init_steps l
    rw [hm]
    refine ⟨?_, ?_, rfl, ⟨expr.toList, line, c, rfl, hs⟩, rfl⟩
    · unfold init_steps at *
      simp only [ASSERT_CHECK, cleanup_and_exit, List.filterMap_append, hs, c1,
        List.filterMap_cons, List.filterMap_nil, Call.initStep, List.append_nil]
    · simp only [ASSERT_CHECK, cleanup_and_exit, List.countP_append, hl, c2,
        List.countP_cons, List.countP_nil, Call.isLoopCall, Bool.false_eq_true, if_false]
  refine ⟨part1, ?_, ?_⟩
  · intro hall
    obtain ⟨l, c, hm, hs, hl, _, _⟩ := main_init_success K T E hall
    obtain ⟨b, rest, hr⟩ := render_loop_calls_head K l.window l.queue l.render_pipeline
      l.demo E.frames
    rw [hm]
    unfold main_loop
    simp only
    split_ifs
    · exact ⟨c, l.window, b, rest, by rw [hr], hs, hl⟩
    · refine ⟨c, l.window, b,
        rest ++ cleanup { l with demo :=
          (render_loop K l.window l.queue l.render_pipeline l.demo E.frames).demo },
        ?_, hs, hl⟩
      simp only [cleanup_and_exit, hr, List.append_assoc, List.cons_append]
  · intro hpos
    by_contra hne
    obtain ⟨k, hk1, hk2, hprev, hfail⟩ := first_failure_exists K E hne
    have := (part1 k hk1 hk2 hprev hfail).2.1
    omega

/-- C4 when the adapter request is the first step to fail: steps 1 to 5
are performed and `main` returns after the cleanup section. -/
theorem C4_init_order_fail_fast_witness :
    init_steps (main stdHeaders Target.LINUX_X11
        { sample_env with adapter_results := [⟨1, 0, "none".toList⟩] }).calls =
      [1, 2, 3, 4, 5] ∧
    (main stdHeaders Target.LINUX_X11
        { sample_env with adapter_results := [⟨1, 0, "none".toList⟩] }).calls.countP
      Call.isLoopCall = 0 ∧
    (main stdHeaders Target.LINUX_X11
        { sample_env with adapter_results := [⟨1, 0, "none".toList⟩] }).exit =
      Exit.returned 0 :=
  have h := (C4_init_order_fail_fast stdHeaders Target.LINUX_X11
      { sample_env with adapter_results := [⟨1, 0, "none".toList⟩] }).1 5
    (by decide) (by decide)
    (by intro j h1 h2; interval_cases j <;> rfl) rfl
  ⟨h.1, h.2.1, h.2.2.2.2⟩

/-- C3 at a frame whose error scope reports a lost surface and whose texture
view is 6. -/
theorem C3_skipped_frame_witness :
    (frame stdHeaders 10 11 12 sample_demo
        ⟨[], 6, [⟨1, "Surface was lost".toList⟩], 0, 0, 0⟩).calls =
      (frame_head stdHeaders 10 sample_demo
        ⟨[], 6, [⟨1, "Surface was lost".toList⟩], 0, 0, 0⟩).calls ++
        [Call.wgpuTextureViewRelease 6] ∧
    (frame stdHeaders 10 11 12 sample_demo
        ⟨[], 6, [⟨1, "Surface was lost".toList⟩], 0, 0, 0⟩).aborted = false :=
  have h := C3_skipped_frame stdHeaders 10 11 12 sample_demo
    ⟨[], 6, [⟨1, "Surface was lost".toList⟩], 0, 0, 0⟩ [] rfl
  ⟨h.2.1, h.2.2.2.2.2.1⟩

/-- C7: `skip_curr_frame` is cleared at the start of every iteration, before
events are polled and before the texture view is requested, and
`handle_curr_texture_error` never clears it.  Hence the flag read in
iteration `n` is true exactly when, during that iteration, the error
callback was invoked with a type other than `WGPUErrorType_NoError` and a
message containing one of the three surface phrases; what happened in an
earlier iteration plays no part. -/
theorem C7_skip_is_per_frame (K : Headers) (T : Target) (E : Env) :
    (∀ window queue render_pipeline d F b,
      frame K window queue render_pipeline { d with skip_curr_frame := b } F =
        frame K window queue render_pipeline d F) ∧
    (∀ window d F, (after_poll K window d F).skip_curr_frame = false) ∧
    (∀ type message d, d.skip_curr_frame = true →
      (handle_curr_texture_error K type message d).1.skip_curr_frame = true) ∧
    (∀ window queue render_pipeline d F,
      (frame K window queue render_pipeline d F).skip = some true ↔
        ((frame_head K window d F).aborted = false ∧
          ∃ e ∈ F.errors, e.type ≠ K.WGPUErrorType_NoError ∧
            ("Surface timed out".toList <:+: e.message ∨
              "Surface is outdated".toList <:+: e.message ∨
              "Surface was lost".toList <:+: e.message))) ∧
    (∀ (n : Nat) (b : Bool), (main K T E).skips[n]? = some b →
      ∃ F : FrameEnv, E.frames[n]? = some F ∧
        (b = true ↔ ∃ e ∈ F.errors, e.type ≠ K.WGPUErrorType_NoError ∧
          ("Surface timed out".toList <:+: e.message ∨
            "Surface is outdated".toList <:+: e.message ∨
            "Surface was lost".toList <:+: e.message))) := by
  refine ⟨fun w q rp d F b => frame_entry_flag K w q rp d F b,
    fun w d F => after_poll_skip K w d F, ?_, ?_, ?_⟩
  · intro type message d hd
    exact (handle_curr_texture_error_skip K type message d).mpr (Or.inl hd)
  · intro w q rp d F
    have h := frame_skip_some K w q rp d F true
    constructor
    · intro hs
      exact ⟨(h.mp hs).1, (h.mp hs).2.mp rfl⟩
    · intro hs
      exact h.mpr ⟨hs.1, ⟨fun _ => hs.2, fun _ => rfl⟩⟩
  · intro n b h
    rcases (main_facts K T E).2.2.1 with h0 | ⟨w, q, rp, d, h1⟩
    · rw [h0] at h
      simp at h
    · rw [h1] at h
      exact render_loop_skips K w q rp E.frames d n b h

/-- C7 on a run of two frames, the first reporting a lost surface and the
second reporting nothing: the first flag is true because of the report of
the first frame. -/
theorem C7_skip_is_per_frame_witness :
    (main stdHeaders Target.LINUX_X11
        { sample_env with frames :=
            [⟨[], 0, [⟨1, "Surface was lost".toList⟩], 0, 0, 0⟩,
              ⟨[], 6, [⟨0, []⟩], 7, 8, 9⟩] }).skips = [true, false] ∧
    ∃ F : FrameEnv,
      ([⟨[], 0, [⟨1, "Surface was lost".toList⟩], 0, 0, 0⟩,
          ⟨[], 6, [⟨0, []⟩], 7, 8, 9⟩] : List FrameEnv)[0]? = some F ∧
        (true = true ↔ ∃ e ∈ F.errors, e.type ≠ stdHeaders.WGPUErrorType_NoError ∧
          ("Surface timed out".toList <:+: e.message ∨
            "Surface is outdated".toList <:+: e.message ∨
            "Surface was lost".toList <:+: e.message)) :=
  ⟨rfl, (C7_skip_is_per_frame stdHeaders Target.LINUX_X11
      { sample_env with frames :=
          [⟨[], 0, [⟨1, "Surface was lost".toList⟩], 0, 0, 0⟩,
            ⟨[], 6, [⟨0, []⟩], 7, 8, 9⟩] }).2.2.2.2 0 true rfl⟩

theorem main_returns_of_failure (K : Headers) (T : Target) (E : Env) (k : Nat)
    (hk1 : 1 ≤ k) (hk2 : k ≤ 12)
    (hprev : ∀ j, 1 ≤ j → j < k → step_ok K E j = true) (hfail : step_ok K E k = false) :
    (main K T E).exit = Exit.returned 0 := by
  obtain ⟨expr, line, l, c, hm, _, _⟩ := main_init_failure K T E k hk1 hk2 hprev hfail
  rw [hm]
  rfl

theorem main_returns_of_safe_frames (K : Headers) (T : Target) (E : Env)
    (hsafe : ∀ F ∈ E.frames, frame_asserts_hold K F) :
    (main K T E).exit = Exit.returned 0 := by
  rcases (main_facts K T E).1 with h | h
  · exact h
  · obtain ⟨w, q, rp, d, ha⟩ := main_aborted_loop K T E h
    rw [render_loop_not_aborted K w q rp E.frames hsafe d] at ha
    exact Bool.noConfusion ha

/-- C8: whenever `main` reaches its cleanup section (the run returns), the
calls of that section are exactly: one release for each of the ten handles
that is non-null at that point, none for a null one, in the order render
pipeline, pipeline layout, shader module, swapchain, queue, device, adapter,
surface, window, instance; then `glfwTerminate`, which is the last call of
the run and is called exactly once, also when `glfwInit` failed.  Over the
whole run the swapchains released are exactly the swapchains created
(initially or by a resize), each once and in the order of creation.  The
runs that return include every initialization failure and every window close
after frames in which no `assert` fails. -/
theorem C8_cleanup_releases (K : Headers) (T : Target) (E : Env) :
    ((main K T E).exit = Exit.returned 0 →
      (∃ pre, (main K T E).calls = pre ++ expected_cleanup (main K T E).locals ∧
        pre.countP Call.isTerminate = 0) ∧
      (main K T E).calls.countP Call.isTerminate = 1 ∧
      (main K T E).calls.getLast? = some Call.glfwTerminate ∧
      swapchains_released (main K T E).calls = swapchains_created (main K T E).calls) ∧
    (E.glfwInit = 0 →
      (main K T E).exit = Exit.returned 0 ∧
      expected_cleanup (main K T E).locals = [Call.glfwTerminate] ∧
      (main K T E).calls.countP Call.isGPU = 0) ∧
    (∀ k, 1 ≤ k → k ≤ 12 → (∀ j, 1 ≤ j → j < k → step_ok K E j = true) →
      step_ok K E k = false → (main K T E).exit = Exit.returned 0) ∧
    ((∀ F ∈ E.frames, frame_asserts_hold K F) → (main K T E).exit = Exit.returned 0) := by
  refine ⟨?_, ?_, fun k hk1 hk2 hprev hfail =>
    main_returns_of_failure K T E k hk1 hk2 hprev hfail,
    fun hsafe => main_returns_of_safe_frames K T E hsafe⟩
  · intro h
    obtain ⟨pre, h1, h2, h3⟩ := (main_facts K T E).2.2.2 h
    obtain ⟨rel, r1, r2⟩ := cleanup_terminate (main K T E).locals
    refine ⟨⟨pre, by rw [h1, cleanup_eq_expected], h2⟩, ?_, ?_, h3⟩
    · rw [h1, r1]
      simp [List.countP_append, h2, r2, Call.isTerminate]
    · rw [h1, r1, ← List.append_assoc]
      simp
  · intro h0
    rw [main_eq_run_steps]
    simp only [init_sequence, run_steps, initial_locals, h0, ne_eq, not_true_eq_false,
      decide_False, Bool.false_eq_true, if_false, List.nil_append]
    refine ⟨rfl, rfl, ?_⟩
    simp only [ASSERT_CHECK, cleanup_and_exit, cleanup, ne_eq, not_true_eq_false, if_false,
      List.append_nil, List.nil_append]
    split_ifs <;> simp [List.countP_cons, Call.isGPU]

/-- C8 on a run with one rendered frame during which the window is resized:
swapchain 5 and swapchain 15 are both created and both released. -/
theorem C8_cleanup_releases_witness :
    swapchains_released (main stdHeaders Target.LINUX_X11
        { sample_env with frames :=
            [⟨[Event.framebuffer_size 800 600 15], 6, [], 7, 8, 9⟩] }).calls = [5, 15] ∧
    swapchains_created (main stdHeaders Target.LINUX_X11
        { sample_env with frames :=
            [⟨[Event.framebuffer_size 800 600 15], 6, [], 7, 8, 9⟩] }).calls = [5, 15] ∧
    (main stdHeaders Target.LINUX_X11
        { sample_env with frames :=
            [⟨[Event.framebuffer_size 800 600 15], 6, [], 7, 8, 9⟩] }).calls.getLast? =
      some Call.glfwTerminate :=
  have h := (C8_cleanup_releases stdHeaders Target.LINUX_X11
      { sample_env with frames :=
          [⟨[Event.framebuffer_size 800 600 15], 6, [], 7, 8, 9⟩] }).1 rfl
  ⟨rfl, rfl, h.2.2.1⟩

/-- C9 (amended): whenever `main` returns it returns 0, whatever the value
of `EXIT_SUCCESS`; the outer `ret` still holds its initial value at the end
and is not what is returned.  `main` returns (with 0) when an initialization
check fails, and when the window is closed after frames in which no `assert`
fails; when an `assert` fails the process is aborted and `main` does not
return, and that happens only inside the render loop. -/
theorem C9_exit_status (K : Headers) (T : Target) (E : Env) :
    ((main K T E).exit = Exit.returned 0 ∨ (main K T E).exit = Exit.aborted) ∧
    (main K T E).locals.ret = K.EXIT_SUCCESS ∧
    (∀ k, 1 ≤ k → k ≤ 12 → (∀ j, 1 ≤ j → j < k → step_ok K E j = true) →
      step_ok K E k = false → (main K T E).exit = Exit.returned 0) ∧
    ((∀ F ∈ E.frames, frame_asserts_hold K F) → (main K T E).exit = Exit.returned 0) ∧
    ((main K T E).exit = Exit.aborted →
      (∀ j, 1 ≤ j → j ≤ 12 → step_ok K E j = true) ∧
      ∃ window queue render_pipeline d,
        (render_loop K window queue render_pipeline d E.frames).aborted = true) := by
  have hf := main_facts K T E
  have h3 : ∀ k, 1 ≤ k → k ≤ 12 → (∀ j, 1 ≤ j → j < k → step_ok K E j = true) →
      step_ok K E k = false → (main K T E).exit = Exit.returned 0 :=
    fun k hk1 hk2 hprev hfail => main_returns_of_failure K T E k hk1 hk2 hprev hfail
  refine ⟨hf.1, hf.2.1, h3, fun hsafe => main_returns_of_safe_frames K T E hsafe, ?_⟩
  · intro ha
    refine ⟨?_, main_aborted_loop K T E ha⟩
    by_contra hne
    obtain ⟨k, hk1, hk2, hprev, hfail⟩ := first_failure_exists K E hne
    rw [h3 k hk1 hk2 hprev hfail] at ha
    exact Exit.noConfusion ha

/-- C9 as stated fails when, in a frame, the texture view comes back null
and the error reported is not one of the three surface errors: the `assert`
on the view aborts the process and `main` does not return. -/
theorem C9_counterexample :
    (main stdHeaders Target.LINUX_X11
        { sample_env with
          frames := [⟨[], 0, [⟨1, "Out of memory".toList⟩], 0, 0, 0⟩] }).exit =
      Exit.aborted ∧
    (main stdHeaders Target.LINUX_X11
        { sample_env with
          frames := [⟨[], 0, [⟨1, "Out of memory".toList⟩], 0, 0, 0⟩] }).exit ≠
      Exit.returned 0 :=
  ⟨rfl, by decide⟩

/-- C9 when the device request fails, with `EXIT_SUCCESS` set to 7: `main`
returns 0 and `ret` is 7. -/
theorem C9_exit_status_witness :
    (main { stdHeaders with EXIT_SUCCESS := 7 } Target.WINDOWS
        { sample_env with device_results := [] }).exit = Exit.returned 0 ∧
    (main { stdHeaders with EXIT_SUCCESS := 7 } Target.WINDOWS
        { sample_env with device_results := [] }).locals.ret = 7 :=
  have h := C9_exit_status { stdHeaders with EXIT_SUCCESS := 7 } Target.WINDOWS
    { sample_env with device_results := [] }
  ⟨h.2.2.1 6 (by decide) (by decide) (by intro j h1 h2; interval_cases j <;> rfl) rfl,
    h.2.1⟩

end Triangle
